import Mathlib

set_option maxHeartbeats 1000000

namespace Lcd

/-- Register addresses of the TCA9534 expander, from the constants in src/src/lib.rs. -/
def TCA9534_REG_OUTPUT : Nat := 0x01

def TCA9534_REG_POLARITY : Nat := 0x02

def TCA9534_REG_CONFIG : Nat := 0x03

/-- Shadow of the logical output pins staged for the expander, translated from
struct `OutputState` in src/src/lib.rs; `data` models a `u8` as a `Nat`. -/
structure OutputState where
  rs : Bool
  rw : Bool
  e : Bool
  led : Bool
  data : Nat
deriving DecidableEq

/-- Translation of `OutputState::new` from the source: all pins low, data zero. -/
def OutputState.new : OutputState := ⟨false, false, false, false, 0⟩

/-- Translation of `OutputState::get_high_data` from the source: control bits in the low nibble,
the high nibble of `data` in the high bits. -/
def OutputState.get_high_data (s : OutputState) : Nat :=
  let buffer : Nat := 0
  let buffer := if s.rs then buffer ||| 0x01 else buffer
  let buffer := if s.rw then buffer ||| 0x02 else buffer
  let buffer := if s.e then buffer ||| 0x04 else buffer
  let buffer := if s.led then buffer ||| 0x08 else buffer
  buffer ||| (s.data &&& 0xF0)

/-- Translation of `OutputState::get_low_data` from the source: control bits in the low nibble,
the low nibble of `data` shifted into the high bits. -/
def OutputState.get_low_data (s : OutputState) : Nat :=
  let buffer : Nat := 0
  let buffer := if s.rs then buffer ||| 0x01 else buffer
  let buffer := if s.rw then buffer ||| 0x02 else buffer
  let buffer := if s.e then buffer ||| 0x04 else buffer
  let buffer := if s.led then buffer ||| 0x08 else buffer
  buffer ||| ((s.data &&& 0x0F) <<< 4)

/-- The driver state of struct `LcdI2c` in src/src/lib.rs. The i2c bus handle is
externalized into the machine model below, so only the address, the staged pin
shadow and the two accumulator flag bytes remain. -/
structure LcdI2c where
  address : Nat
  output : OutputState
  display_state : Nat
  entry_state : Nat
deriving DecidableEq

/-- Translation of `LcdI2c::new` from the source: fresh pin shadow, both flag bytes zero. -/
def LcdI2c.new (address : Nat) : LcdI2c :=
  ⟨address, OutputState.new, 0x00, 0x00⟩

/-- The cumulative controller-flag accumulator bytes held by the driver struct:
exactly the fields `display_state` and `entry_state` of `LcdI2c` in the source
(the remaining fields are the bus handle, the address, and the pin shadow). -/
def LcdI2c.flagAccumulators (d : LcdI2c) : List Nat :=
  [d.display_state, d.entry_state]

/-- One write transaction on the two-wire bus: target address and payload bytes. -/
structure Tx where
  addr : Nat
  bytes : List Nat
deriving DecidableEq

/-- Machine state threaded through every operation: the driver state, a counter
of bus writes attempted so far, and the trace of attempted writes in order. -/
structure MState where
  drv : LcdI2c
  clock : Nat
  trace : List Tx
deriving DecidableEq

/-- A bus behaviour: whether the n-th write attempt succeeds. -/
def Bus : Type := Nat → Bool

/-- The bus on which every write succeeds. -/
def busOK : Bus := fun _ => true

/-- The bus on which every write fails. -/
def busFail : Bus := fun _ => false

/-- The bus failing exactly at write index k. -/
def busFailAt (k : Nat) : Bus := fun i => i != k

/-- State-and-error monad for driver operations: Rust `Result` with `?`, over a
mutable `&mut self`. The state survives an error return, as it does in Rust. -/
def M (α : Type) : Type := MState → Except Unit α × MState

def M.pure (a : α) : M α := fun s => (Except.ok a, s)

def M.bind (m : M α) (f : α → M β) : M β := fun s =>
  match m s with
  | (Except.ok a, s1) => f a s1
  | (Except.error e, s1) => (Except.error e, s1)

instance : Monad M where
  pure := M.pure
  bind := M.bind

def M.getS : M MState := fun s => (Except.ok s, s)

def M.modifyDrv (f : LcdI2c → LcdI2c) : M Unit := fun s =>
  (Except.ok (), { s with drv := f s.drv })

def M.setRS (b : Bool) : M Unit :=
  M.modifyDrv fun d => { d with output := { d.output with rs := b } }

def M.setRW (b : Bool) : M Unit :=
  M.modifyDrv fun d => { d with output := { d.output with rw := b } }

def M.setE (b : Bool) : M Unit :=
  M.modifyDrv fun d => { d with output := { d.output with e := b } }

def M.setLED (b : Bool) : M Unit :=
  M.modifyDrv fun d => { d with output := { d.output with led := b } }

def M.setData (v : Nat) : M Unit :=
  M.modifyDrv fun d => { d with output := { d.output with data := v } }

def M.setDS (f : Nat → Nat) : M Unit :=
  M.modifyDrv fun d => { d with display_state := f d.display_state }

def M.setES (f : Nat → Nat) : M Unit :=
  M.modifyDrv fun d => { d with entry_state := f d.entry_state }

/-- One attempted bus write: always recorded in the trace and counted, then the
operation either continues or aborts with the transport error, per the bus. -/
def M.busWrite (bus : Bus) (addr : Nat) (bytes : List Nat) : M Unit := fun s =>
  ((if bus s.clock then Except.ok () else Except.error ()),
   { s with clock := s.clock + 1, trace := s.trace ++ [⟨addr, bytes⟩] })

/-- Translation of `LcdI2c::i2c_write` from the source: write `[output_register, byte]` to the
driver address. -/
def i2c_write (bus : Bus) (output : Nat) : M Unit := fun s =>
  M.busWrite bus s.drv.address [TCA9534_REG_OUTPUT, output] s

/-- Translation of `LcdI2c::lcd_write` from the source: stage the byte, pulse Enable around the
high-nibble frame, and unless in initialization mode repeat for the low nibble.
Timer waits carry no bus traffic and are omitted from the model. -/
def lcd_write (bus : Bus) (output : Nat) (init : Bool) : M Unit := do
  M.setData output
  M.setE true
  let s ← M.getS
  i2c_write bus s.drv.output.get_high_data
  M.setE false
  let s ← M.getS
  i2c_write bus s.drv.output.get_high_data
  if !init then
    M.setE true
    let s ← M.getS
    i2c_write bus s.drv.output.get_low_data
    M.setE false
    let s ← M.getS
    i2c_write bus s.drv.output.get_low_data

/-- Translation of `LcdI2c::clear` from the source. -/
def clear (bus : Bus) : M Unit := do
  M.setRS false
  M.setRW false
  lcd_write bus 0x01 false

/-- Translation of `LcdI2c::home` from the source. -/
def home (bus : Bus) : M Unit := do
  M.setRS false
  M.setRW false
  lcd_write bus 0x02 false

/-- Translation of `LcdI2c::display` from the source. -/
def display (bus : Bus) : M Unit := do
  M.setRS false
  M.setRW false
  M.setDS (fun v => v ||| (1 <<< 2))
  let s ← M.getS
  lcd_write bus (0x08 ||| s.drv.display_state) false

/-- Translation of `LcdI2c::no_display` from the source; `!(1u8 << 2)` is `0xFB`. -/
def no_display (bus : Bus) : M Unit := do
  M.setRS false
  M.setRW false
  M.setDS (fun v => v &&& 0xFB)
  let s ← M.getS
  lcd_write bus (0x08 ||| s.drv.display_state) false

/-- Translation of `LcdI2c::cursor` from the source. -/
def cursor (bus : Bus) : M Unit := do
  M.setRS false
  M.setRW false
  M.setDS (fun v => v ||| (1 <<< 1))
  let s ← M.getS
  lcd_write bus (0x08 ||| s.drv.display_state) false

/-- Translation of `LcdI2c::no_cursor` from the source; `!(1u8 << 1)` is `0xFD`. -/
def no_cursor (bus : Bus) : M Unit := do
  M.setRS false
  M.setRW false
  M.setDS (fun v => v &&& 0xFD)
  let s ← M.getS
  lcd_write bus (0x08 ||| s.drv.display_state) false

/-- Translation of `LcdI2c::blink` from the source. -/
def blink (bus : Bus) : M Unit := do
  M.setRS false
  M.setRW false
  M.setDS (fun v => v ||| 1)
  let s ← M.getS
  lcd_write bus (0x08 ||| s.drv.display_state) false

/-- Translation of `LcdI2c::no_blink` from the source; `!1u8` is `0xFE`. -/
def no_blink (bus : Bus) : M Unit := do
  M.setRS false
  M.setRW false
  M.setDS (fun v => v &&& 0xFE)
  let s ← M.getS
  lcd_write bus (0x08 ||| s.drv.display_state) false

/-- Translation of `LcdI2c::left_to_right` from the source. -/
def left_to_right (bus : Bus) : M Unit := do
  M.setRS false
  M.setRW false
  M.setES (fun v => v ||| (1 <<< 1))
  let s ← M.getS
  lcd_write bus (0x04 ||| s.drv.entry_state) false

/-- Translation of `LcdI2c::right_to_left` from the source; `!(1u8 << 1)` is `0xFD`. -/
def right_to_left (bus : Bus) : M Unit := do
  M.setRS false
  M.setRW false
  M.setES (fun v => v &&& 0xFD)
  let s ← M.getS
  lcd_write bus (0x04 ||| s.drv.entry_state) false

/-- Translation of `LcdI2c::autoscroll` from the source. -/
def autoscroll (bus : Bus) : M Unit := do
  M.setRS false
  M.setRW false
  M.setES (fun v => v ||| 1)
  let s ← M.getS
  lcd_write bus (0x04 ||| s.drv.entry_state) false

/-- Translation of `LcdI2c::no_autoscroll` from the source; `!1u8` is `0xFE`. -/
def no_autoscroll (bus : Bus) : M Unit := do
  M.setRS false
  M.setRW false
  M.setES (fun v => v &&& 0xFE)
  let s ← M.getS
  lcd_write bus (0x04 ||| s.drv.entry_state) false

/-- Translation of `LcdI2c::scroll_display_left` from the source. -/
def scroll_display_left (bus : Bus) : M Unit := do
  M.setRS false
  M.setRW false
  lcd_write bus 0x18 false

/-- Translation of `LcdI2c::scroll_display_right` from the source. -/
def scroll_display_right (bus : Bus) : M Unit := do
  M.setRS false
  M.setRW false
  lcd_write bus 0x1C false

/-- Translation of `LcdI2c::backlight` from the source: set the led shadow, then write the bare
backlight byte directly (no lcd_write cycle). -/
def backlight (bus : Bus) : M Unit := do
  M.setLED true
  let s ← M.getS
  i2c_write bus (0x00 ||| ((if s.drv.output.led then 1 else 0) <<< 3))

/-- Translation of `LcdI2c::no_backlight` from the source. -/
def no_backlight (bus : Bus) : M Unit := do
  M.setLED false
  let s ← M.getS
  i2c_write bus (0x00 ||| ((if s.drv.output.led then 1 else 0) <<< 3))

/-- Translation of `LcdI2c::set_cursor` from the source. The `u8` addition
`(if row == 0 then 0x00 else 0x40) + col` wraps modulo 256. -/
def set_cursor (bus : Bus) (col row : Nat) : M Unit := do
  M.setRS false
  M.setRW false
  let new_address := ((if row == 0 then 0x00 else 0x40) + col) % 256
  lcd_write bus (0x80 ||| new_address) false

/-- Translation of `LcdI2c::write_byte` from the source: data write with RS asserted. -/
def write_byte (bus : Bus) (byte : Nat) : M Unit := do
  M.setRS true
  M.setRW false
  lcd_write bus byte false

/-- The `for` loop over bytes shared by `write_str` and `create_char` in the
source, calling `write_byte` on each byte in order. -/
def writeBytesLoop (bus : Bus) : List Nat → M Unit
  | [] => M.pure ()
  | b :: rest => do
    write_byte bus b
    writeBytesLoop bus rest

/-- Translation of `LcdI2c::write_str` from the source (the fallible inherent method). -/
def write_str (bus : Bus) (s : List Nat) : M Unit :=
  writeBytesLoop bus s

/-- Translation of `LcdI2c::create_char` from the source: mask the slot with `% 8`, issue the
set-CGRAM-address command, write the 8 glyph bytes as data, then restore the
address pointer with `set_cursor(0, 0)`. -/
def create_char (bus : Bus) (location : Nat) (charmap : List Nat) : M Unit := do
  M.setRS false
  M.setRW false
  let location := location % 8
  lcd_write bus (0x40 ||| (location <<< 3)) false
  writeBytesLoop bus charmap
  set_cursor bus 0 0

/-- Translation of `LcdI2c::initialize_lcd` from the source: the HD44780 Figure-24 cold boot.
The first four transfers are high-nibble-only (initialization mode). -/
def initialize_lcd (bus : Bus) : M Unit := do
  M.setRS false
  M.setRW false
  lcd_write bus 0x30 true
  lcd_write bus 0x30 true
  lcd_write bus 0x30 true
  lcd_write bus 0x20 true
  lcd_write bus 0x28 false
  display bus
  clear bus
  left_to_right bus

/-- Translation of `LcdI2c::begin` from the source: expander bring-up (config, polarity,
output registers) then the controller cold boot. -/
def begin (bus : Bus) : M Unit := do
  let s ← M.getS
  M.busWrite bus s.drv.address [TCA9534_REG_CONFIG, 0x00]
  let s ← M.getS
  M.busWrite bus s.drv.address [TCA9534_REG_POLARITY, 0x00]
  let s ← M.getS
  M.busWrite bus s.drv.address [TCA9534_REG_OUTPUT, 0x00]
  initialize_lcd bus

/-- One attempted bus write whose success is returned as a value instead of an
error, modelling `self.i2c_write(..).is_err()` in the fmt::Write impl. -/
def M.tryWrite (bus : Bus) (addr : Nat) (bytes : List Nat) : M Bool := fun s =>
  (Except.ok (bus s.clock),
   { s with clock := s.clock + 1, trace := s.trace ++ [⟨addr, bytes⟩] })

def try_i2c_write (bus : Bus) (output : Nat) : M Bool := fun s =>
  M.tryWrite bus s.drv.address [TCA9534_REG_OUTPUT, output] s

/-- Translation of `<LcdI2c as fmt::Write>::write_str` from the source: per byte, four raw
frame writes with no waits; on the first failing write it returns
`Err(fmt::Error)` (modelled as `Except.error ()` in the returned value). -/
def fmt_write_str (bus : Bus) : List Nat → M (Except Unit Unit)
  | [] => M.pure (Except.ok ())
  | byte :: rest => do
    M.setRS true
    M.setRW false
    M.setData byte
    M.setE true
    let s ← M.getS
    let ok1 ← try_i2c_write bus s.drv.output.get_high_data
    if !ok1 then M.pure (Except.error ()) else do
      M.setE false
      let s ← M.getS
      let ok2 ← try_i2c_write bus s.drv.output.get_high_data
      if !ok2 then M.pure (Except.error ()) else do
        M.setE true
        let s ← M.getS
        let ok3 ← try_i2c_write bus s.drv.output.get_low_data
        if !ok3 then M.pure (Except.error ()) else do
          M.setE false
          let s ← M.getS
          let ok4 ← try_i2c_write bus s.drv.output.get_low_data
          if !ok4 then M.pure (Except.error ()) else
            fmt_write_str bus rest

/-- The public fallible operations of the driver, for quantifying over the API. -/
inductive Op : Type
  | opBegin
  | opClear
  | opHome
  | opDisplay
  | opNoDisplay
  | opCursor
  | opNoCursor
  | opBlink
  | opNoBlink
  | opLeftToRight
  | opRightToLeft
  | opAutoscroll
  | opNoAutoscroll
  | opScrollLeft
  | opScrollRight
  | opBacklight
  | opNoBacklight
  | opSetCursor (col row : Nat)
  | opCreateChar (location : Nat) (charmap : List Nat)
  | opWriteByte (byte : Nat)
  | opWriteStr (s : List Nat)
deriving DecidableEq

def Op.run (bus : Bus) : Op → M Unit
  | opBegin => begin bus
  | opClear => clear bus
  | opHome => home bus
  | opDisplay => display bus
  | opNoDisplay => no_display bus
  | opCursor => cursor bus
  | opNoCursor => no_cursor bus
  | opBlink => blink bus
  | opNoBlink => no_blink bus
  | opLeftToRight => left_to_right bus
  | opRightToLeft => right_to_left bus
  | opAutoscroll => autoscroll bus
  | opNoAutoscroll => no_autoscroll bus
  | opScrollLeft => scroll_display_left bus
  | opScrollRight => scroll_display_right bus
  | opBacklight => backlight bus
  | opNoBacklight => no_backlight bus
  | opSetCursor col row => set_cursor bus col row
  | opCreateChar l c => create_char bus l c
  | opWriteByte b => write_byte bus b
  | opWriteStr s => write_str bus s

/-- Run a sequence of public operations in order; errors abort the rest, as a
Rust caller using `?` on each call would. -/
def runOps (bus : Bus) : List Op → M Unit
  | [] => M.pure ()
  | op :: rest => do
    op.run bus
    runOps bus rest

/-- The machine state at construction: driver from `LcdI2c::new`, no bus
traffic yet. -/
def MState.init (d : LcdI2c) : MState := ⟨d, 0, []⟩

/-- One expander write as it appears on the bus: output register, then byte. -/
def frame (addr v : Nat) : Tx := ⟨addr, [TCA9534_REG_OUTPUT, v]⟩

/-- The four expander writes of one full (post-init) `lcd_write` cycle, in
order: high nibble with Enable set, high nibble with Enable clear, low nibble
with Enable set, low nibble with Enable clear. -/
def cmdFrames (addr : Nat) (rs rw led : Bool) (b : Nat) : List Tx :=
  [frame addr (OutputState.get_high_data ⟨rs, rw, true, led, b⟩),
   frame addr (OutputState.get_high_data ⟨rs, rw, false, led, b⟩),
   frame addr (OutputState.get_low_data ⟨rs, rw, true, led, b⟩),
   frame addr (OutputState.get_low_data ⟨rs, rw, false, led, b⟩)]

/-- The two expander writes of an initialization-mode `lcd_write`: only the
high-nibble half-cycle. -/
def initFrames (addr : Nat) (rs rw led : Bool) (b : Nat) : List Tx :=
  [frame addr (OutputState.get_high_data ⟨rs, rw, true, led, b⟩),
   frame addr (OutputState.get_high_data ⟨rs, rw, false, led, b⟩)]

/-- The expander writes of a run of `write_byte` calls over a byte list. -/
def dataFramesList (addr : Nat) (led : Bool) : List Nat → List Tx
  | [] => []
  | b :: rest => cmdFrames addr true false led b ++ dataFramesList addr led rest

/-- Driver state after a run of `write_byte` calls over a byte list. -/
def loopDrv (d : LcdI2c) : List Nat → LcdI2c
  | [] => d
  | b :: rest =>
    loopDrv { d with output := { d.output with rs := true, rw := false, data := b, e := false } } rest

/-- The expander output byte of each transaction in a trace (the byte following
the output-register address). -/
def bytesOf (l : List Tx) : List Nat :=
  l.map fun t => t.bytes.getD 1 0

/-- A byte sequence respects the enable-pulse discipline: every byte with the
Enable bit (0x04) set is immediately followed by the same byte with Enable
cleared, and every other byte has Enable clear. -/
inductive Pulsed : List Nat → Prop
  | nil : Pulsed []
  | low (v : Nat) (rest : List Nat) (h : v &&& 0x04 = 0) (hr : Pulsed rest) :
      Pulsed (v :: rest)
  | pulse (v : Nat) (rest : List Nat) (h : v &&& 0x04 = 4) (hr : Pulsed rest) :
      Pulsed (v :: (v - 4) :: rest)

/-- Whether a Rust `Result` came back `Ok`. -/
def okB : Except Unit α → Bool
  | Except.ok _ => true
  | Except.error _ => false

/-- First-failure discipline of a driver operation under a bus behaviour: every
attempted write is recorded once; on success all attempted writes succeeded; on
error the last attempted write is the failing one and all attempts before it
succeeded, so nothing is written after the first failure and nothing is
retried. -/
def NoRetry (bus : Bus) (m : M α) : Prop :=
  ∀ s, s.clock = s.trace.length →
    (m s).2.clock = (m s).2.trace.length ∧
    s.clock ≤ (m s).2.clock ∧
    (okB (m s).1 = true → ∀ i, s.clock ≤ i → i < (m s).2.clock → bus i = true) ∧
    (okB (m s).1 = false →
      s.clock < (m s).2.clock ∧
      bus ((m s).2.clock - 1) = false ∧
      ∀ i, s.clock ≤ i → i < (m s).2.clock - 1 → bus i = true)

/-- The operation only relates driver states through P (used for preservation
invariants threaded through error paths). -/
def DrvRel (m : M α) (P : LcdI2c → LcdI2c → Prop) : Prop :=
  ∀ s, P s.drv ((m s).2.drv)

/-- Well-formedness of the numeric arguments of a public operation: each models
a `u8`, so it is below 256. -/
def Op.wf : Op → Prop
  | Op.opSetCursor col row => col < 256 ∧ row < 256
  | Op.opCreateChar location charmap => location < 256 ∧ ∀ b ∈ charmap, b < 256
  | Op.opWriteByte byte => byte < 256
  | Op.opWriteStr s => ∀ b ∈ s, b < 256
  | _ => True

/-- Well-formedness of a driver value: the `u8` fields are below 256 and the
Enable shadow is low (the resting state every operation maintains). -/
def LcdI2c.wf (d : LcdI2c) : Prop :=
  d.display_state < 256 ∧ d.entry_state < 256 ∧ d.output.data < 256 ∧
    d.output.e = false

/-- The logical signals recoverable from one rendered expander byte: the four
control bits and the 4-bit data payload field (bits 4 to 7). -/
def decodeSig (v : Nat) : Bool × Bool × Bool × Bool × Nat :=
  (v.testBit 0, v.testBit 1, v.testBit 2, v.testBit 3, v &&& 0xF0)

/-- Computations that touch no bus state: always succeed, clock and trace
unchanged. -/
def Silent (m : M α) : Prop :=
  ∀ s, okB (m s).1 = true ∧ (m s).2.clock = s.clock ∧ (m s).2.trace = s.trace

/-- First-failure discipline of the fmt sink, whose error is a value rather
than a monadic error: the monadic channel always comes back ok; an ok value
means every attempted write succeeded; an error value means the last attempted
write is the failing one and everything before it succeeded. -/
def FmtSpec (bus : Bus) (m : M (Except Unit Unit)) : Prop :=
  ∀ s, s.clock = s.trace.length →
    (m s).2.clock = (m s).2.trace.length ∧
    s.clock ≤ (m s).2.clock ∧
    (∃ x, (m s).1 = Except.ok x) ∧
    ((m s).1 = Except.ok (Except.ok ()) →
      ∀ i, s.clock ≤ i → i < (m s).2.clock → bus i = true) ∧
    ((m s).1 = Except.ok (Except.error ()) →
      s.clock < (m s).2.clock ∧
      bus ((m s).2.clock - 1) = false ∧
      ∀ i, s.clock ≤ i → i < (m s).2.clock - 1 → bus i = true)


theorem M.bind_apply (m : M α) (f : α → M β) (s : MState) :
    (m >>= f) s =
      match m s with
      | (Except.ok a, s1) => f a s1
      | (Except.error e, s1) => (Except.error e, s1) := rfl

theorem M.pure_apply (a : α) (s : MState) :
    @Pure.pure M (Applicative.toPure) α a s = (Except.ok a, s) := rfl

theorem lcd_write_ok (b : Nat) (s : MState) :
    lcd_write busOK b false s =
      (Except.ok (),
        ⟨{ s.drv with output := { s.drv.output with data := b, e := false } },
          s.clock + 4,
          s.trace ++ cmdFrames s.drv.address s.drv.output.rs s.drv.output.rw s.drv.output.led b⟩) := by
  simp [lcd_write, cmdFrames, frame, M.bind_apply, M.getS, M.setData, M.setE, M.modifyDrv,
    i2c_write, M.busWrite, busOK, M.pure_apply, OutputState.get_high_data, OutputState.get_low_data]

theorem lcd_write_init_ok (b : Nat) (s : MState) :
    lcd_write busOK b true s =
      (Except.ok (),
        ⟨{ s.drv with output := { s.drv.output with data := b, e := false } },
          s.clock + 2,
          s.trace ++ initFrames s.drv.address s.drv.output.rs s.drv.output.rw s.drv.output.led b⟩) := by
  simp [lcd_write, initFrames, frame, M.bind_apply, M.getS, M.setData, M.setE, M.modifyDrv,
    i2c_write, M.busWrite, busOK, M.pure_apply, OutputState.get_high_data, OutputState.get_low_data]

theorem clear_ok (s : MState) :
    clear busOK s =
      (Except.ok (),
        ⟨{ s.drv with output := { s.drv.output with rs := false, rw := false, data := 0x01, e := false } },
          s.clock + 4,
          s.trace ++ cmdFrames s.drv.address false false s.drv.output.led 0x01⟩) := by
  simp [clear, M.bind_apply, M.setRS, M.setRW, M.modifyDrv, lcd_write_ok]

theorem home_ok (s : MState) :
    home busOK s =
      (Except.ok (),
        ⟨{ s.drv with output := { s.drv.output with rs := false, rw := false, data := 0x02, e := false } },
          s.clock + 4,
          s.trace ++ cmdFrames s.drv.address false false s.drv.output.led 0x02⟩) := by
  simp [home, M.bind_apply, M.setRS, M.setRW, M.modifyDrv, lcd_write_ok]

theorem display_ok (s : MState) :
    display busOK s =
      (Except.ok (),
        ⟨{ s.drv with
            output := { s.drv.output with rs := false, rw := false, data := 0x08 ||| (s.drv.display_state ||| 4), e := false },
            display_state := s.drv.display_state ||| 4 },
          s.clock + 4,
          s.trace ++ cmdFrames s.drv.address false false s.drv.output.led
            (0x08 ||| (s.drv.display_state ||| 4))⟩) := by
  simp [display, M.bind_apply, M.getS, M.setRS, M.setRW, M.setDS, M.modifyDrv, lcd_write_ok]

theorem no_display_ok (s : MState) :
    no_display busOK s =
      (Except.ok (),
        ⟨{ s.drv with
            output := { s.drv.output with rs := false, rw := false, data := 0x08 ||| (s.drv.display_state &&& 0xFB), e := false },
            display_state := s.drv.display_state &&& 0xFB },
          s.clock + 4,
          s.trace ++ cmdFrames s.drv.address false false s.drv.output.led
            (0x08 ||| (s.drv.display_state &&& 0xFB))⟩) := by
  simp [no_display, M.bind_apply, M.getS, M.setRS, M.setRW, M.setDS, M.modifyDrv, lcd_write_ok]

theorem cursor_ok (s : MState) :
    cursor busOK s =
      (Except.ok (),
        ⟨{ s.drv with
            output := { s.drv.output with rs := false, rw := false, data := 0x08 ||| (s.drv.display_state ||| 2), e := false },
            display_state := s.drv.display_state ||| 2 },
          s.clock + 4,
          s.trace ++ cmdFrames s.drv.address false false s.drv.output.led
            (0x08 ||| (s.drv.display_state ||| 2))⟩) := by
  simp [cursor, M.bind_apply, M.getS, M.setRS, M.setRW, M.setDS, M.modifyDrv, lcd_write_ok]

theorem no_cursor_ok (s : MState) :
    no_cursor busOK s =
      (Except.ok (),
        ⟨{ s.drv with
            output := { s.drv.output with rs := false, rw := false, data := 0x08 ||| (s.drv.display_state &&& 0xFD), e := false },
            display_state := s.drv.display_state &&& 0xFD },
          s.clock + 4,
          s.trace ++ cmdFrames s.drv.address false false s.drv.output.led
            (0x08 ||| (s.drv.display_state &&& 0xFD))⟩) := by
  simp [no_cursor, M.bind_apply, M.getS, M.setRS, M.setRW, M.setDS, M.modifyDrv, lcd_write_ok]

theorem blink_ok (s : MState) :
    blink busOK s =
      (Except.ok (),
        ⟨{ s.drv with
            output := { s.drv.output with rs := false, rw := false, data := 0x08 ||| (s.drv.display_state ||| 1), e := false },
            display_state := s.drv.display_state ||| 1 },
          s.clock + 4,
          s.trace ++ cmdFrames s.drv.address false false s.drv.output.led
            (0x08 ||| (s.drv.display_state ||| 1))⟩) := by
  simp [blink, M.bind_apply, M.getS, M.setRS, M.setRW, M.setDS, M.modifyDrv, lcd_write_ok]

theorem no_blink_ok (s : MState) :
    no_blink busOK s =
      (Except.ok (),
        ⟨{ s.drv with
            output := { s.drv.output with rs := false, rw := false, data := 0x08 ||| (s.drv.display_state &&& 0xFE), e := false },
            display_state := s.drv.display_state &&& 0xFE },
          s.clock + 4,
          s.trace ++ cmdFrames s.drv.address false false s.drv.output.led
            (0x08 ||| (s.drv.display_state &&& 0xFE))⟩) := by
  simp [no_blink, M.bind_apply, M.getS, M.setRS, M.setRW, M.setDS, M.modifyDrv, lcd_write_ok]

theorem left_to_right_ok (s : MState) :
    left_to_right busOK s =
      (Except.ok (),
        ⟨{ s.drv with
            output := { s.drv.output with rs := false, rw := false, data := 0x04 ||| (s.drv.entry_state ||| 2), e := false },
            entry_state := s.drv.entry_state ||| 2 },
          s.clock + 4,
          s.trace ++ cmdFrames s.drv.address false false s.drv.output.led
            (0x04 ||| (s.drv.entry_state ||| 2))⟩) := by
  simp [left_to_right, M.bind_apply, M.getS, M.setRS, M.setRW, M.setES, M.modifyDrv, lcd_write_ok]

theorem right_to_left_ok (s : MState) :
    right_to_left busOK s =
      (Except.ok (),
        ⟨{ s.drv with
            output := { s.drv.output with rs := false, rw := false, data := 0x04 ||| (s.drv.entry_state &&& 0xFD), e := false },
            entry_state := s.drv.entry_state &&& 0xFD },
          s.clock + 4,
          s.trace ++ cmdFrames s.drv.address false false s.drv.output.led
            (0x04 ||| (s.drv.entry_state &&& 0xFD))⟩) := by
  simp [right_to_left, M.bind_apply, M.getS, M.setRS, M.setRW, M.setES, M.modifyDrv, lcd_write_ok]

theorem autoscroll_ok (s : MState) :
    autoscroll busOK s =
      (Except.ok (),
        ⟨{ s.drv with
            output := { s.drv.output with rs := false, rw := false, data := 0x04 ||| (s.drv.entry_state ||| 1), e := false },
            entry_state := s.drv.entry_state ||| 1 },
          s.clock + 4,
          s.trace ++ cmdFrames s.drv.address false false s.drv.output.led
            (0x04 ||| (s.drv.entry_state ||| 1))⟩) := by
  simp [autoscroll, M.bind_apply, M.getS, M.setRS, M.setRW, M.setES, M.modifyDrv, lcd_write_ok]

theorem no_autoscroll_ok (s : MState) :
    no_autoscroll busOK s =
      (Except.ok (),
        ⟨{ s.drv with
            output := { s.drv.output with rs := false, rw := false, data := 0x04 ||| (s.drv.entry_state &&& 0xFE), e := false },
            entry_state := s.drv.entry_state &&& 0xFE },
          s.clock + 4,
          s.trace ++ cmdFrames s.drv.address false false s.drv.output.led
            (0x04 ||| (s.drv.entry_state &&& 0xFE))⟩) := by
  simp [no_autoscroll, M.bind_apply, M.getS, M.setRS, M.setRW, M.setES, M.modifyDrv, lcd_write_ok]

theorem scroll_display_left_ok (s : MState) :
    scroll_display_left busOK s =
      (Except.ok (),
        ⟨{ s.drv with output := { s.drv.output with rs := false, rw := false, data := 0x18, e := false } },
          s.clock + 4,
          s.trace ++ cmdFrames s.drv.address false false s.drv.output.led 0x18⟩) := by
  simp [scroll_display_left, M.bind_apply, M.setRS, M.setRW, M.modifyDrv, lcd_write_ok]

theorem scroll_display_right_ok (s : MState) :
    scroll_display_right busOK s =
      (Except.ok (),
        ⟨{ s.drv with output := { s.drv.output with rs := false, rw := false, data := 0x1C, e := false } },
          s.clock + 4,
          s.trace ++ cmdFrames s.drv.address false false s.drv.output.led 0x1C⟩) := by
  simp [scroll_display_right, M.bind_apply, M.setRS, M.setRW, M.modifyDrv, lcd_write_ok]

theorem backlight_ok (s : MState) :
    backlight busOK s =
      (Except.ok (),
        ⟨{ s.drv with output := { s.drv.output with led := true } },
          s.clock + 1,
          s.trace ++ [frame s.drv.address 8]⟩) := by
  simp [backlight, M.bind_apply, M.getS, M.setLED, M.modifyDrv, i2c_write, M.busWrite, busOK, frame]

theorem no_backlight_ok (s : MState) :
    no_backlight busOK s =
      (Except.ok (),
        ⟨{ s.drv with output := { s.drv.output with led := false } },
          s.clock + 1,
          s.trace ++ [frame s.drv.address 0]⟩) := by
  simp [no_backlight, M.bind_apply, M.getS, M.setLED, M.modifyDrv, i2c_write, M.busWrite, busOK, frame]

theorem set_cursor_ok (col row : Nat) (s : MState) :
    set_cursor busOK col row s =
      (Except.ok (),
        ⟨{ s.drv with output := { s.drv.output with rs := false, rw := false, data := 0x80 ||| (((if row == 0 then 0x00 else 0x40) + col) % 256), e := false } },
          s.clock + 4,
          s.trace ++ cmdFrames s.drv.address false false s.drv.output.led
            (0x80 ||| (((if row == 0 then 0x00 else 0x40) + col) % 256))⟩) := by
  simp [set_cursor, M.bind_apply, M.setRS, M.setRW, M.modifyDrv, lcd_write_ok]

theorem write_byte_ok (b : Nat) (s : MState) :
    write_byte busOK b s =
      (Except.ok (),
        ⟨{ s.drv with output := { s.drv.output with rs := true, rw := false, data := b, e := false } },
          s.clock + 4,
          s.trace ++ cmdFrames s.drv.address true false s.drv.output.led b⟩) := by
  simp [write_byte, M.bind_apply, M.setRS, M.setRW, M.modifyDrv, lcd_write_ok]

theorem writeBytesLoop_ok (l : List Nat) (s : MState) :
    writeBytesLoop busOK l s =
      (Except.ok (),
        ⟨loopDrv s.drv l, s.clock + 4 * l.length,
          s.trace ++ dataFramesList s.drv.address s.drv.output.led l⟩) := by
  induction l generalizing s with
  | nil => simp [writeBytesLoop, M.pure, loopDrv, dataFramesList]
  | cons b rest ih =>
    simp [writeBytesLoop, M.bind_apply, write_byte_ok, ih, loopDrv, dataFramesList,
      Nat.mul_succ]
    omega

theorem loopDrv_address (l : List Nat) (d : LcdI2c) : (loopDrv d l).address = d.address := by
  induction l generalizing d with
  | nil => rfl
  | cons b rest ih => simp [loopDrv, ih]

theorem loopDrv_led (l : List Nat) (d : LcdI2c) : (loopDrv d l).output.led = d.output.led := by
  induction l generalizing d with
  | nil => rfl
  | cons b rest ih => simp [loopDrv, ih]

theorem loopDrv_ds (l : List Nat) (d : LcdI2c) : (loopDrv d l).display_state = d.display_state := by
  induction l generalizing d with
  | nil => rfl
  | cons b rest ih => simp [loopDrv, ih]

theorem loopDrv_es (l : List Nat) (d : LcdI2c) : (loopDrv d l).entry_state = d.entry_state := by
  induction l generalizing d with
  | nil => rfl
  | cons b rest ih => simp [loopDrv, ih]

theorem create_char_ok (loc : Nat) (cm : List Nat) (s : MState) :
    create_char busOK loc cm s =
      (Except.ok (),
        ⟨{ loopDrv { s.drv with output := { s.drv.output with rs := false, rw := false, data := 0x40 ||| ((loc % 8) <<< 3), e := false } } cm with
            output := { (loopDrv { s.drv with output := { s.drv.output with rs := false, rw := false, data := 0x40 ||| ((loc % 8) <<< 3), e := false } } cm).output with
              rs := false, rw := false, data := 0x80, e := false } },
          s.clock + 4 + 4 * cm.length + 4,
          s.trace
            ++ cmdFrames s.drv.address false false s.drv.output.led (0x40 ||| ((loc % 8) <<< 3))
            ++ dataFramesList s.drv.address s.drv.output.led cm
            ++ cmdFrames s.drv.address false false s.drv.output.led 0x80⟩) := by
  simp [create_char, M.bind_apply, M.setRS, M.setRW, M.modifyDrv, lcd_write_ok,
    writeBytesLoop_ok, set_cursor_ok, loopDrv_address, loopDrv_led]

theorem initialize_lcd_ok (s : MState) :
    initialize_lcd busOK s =
      (Except.ok (),
        ⟨{ s.drv with
            output := { s.drv.output with rs := false, rw := false, data := 0x04 ||| (s.drv.entry_state ||| 2), e := false },
            display_state := s.drv.display_state ||| 4,
            entry_state := s.drv.entry_state ||| 2 },
          s.clock + 24,
          s.trace
            ++ initFrames s.drv.address false false s.drv.output.led 0x30
            ++ initFrames s.drv.address false false s.drv.output.led 0x30
            ++ initFrames s.drv.address false false s.drv.output.led 0x30
            ++ initFrames s.drv.address false false s.drv.output.led 0x20
            ++ cmdFrames s.drv.address false false s.drv.output.led 0x28
            ++ cmdFrames s.drv.address false false s.drv.output.led (0x08 ||| (s.drv.display_state ||| 4))
            ++ cmdFrames s.drv.address false false s.drv.output.led 0x01
            ++ cmdFrames s.drv.address false false s.drv.output.led (0x04 ||| (s.drv.entry_state ||| 2))⟩) := by
  simp [initialize_lcd, M.bind_apply, M.setRS, M.setRW, M.modifyDrv,
    lcd_write_ok, lcd_write_init_ok, display_ok, clear_ok, left_to_right_ok]

theorem begin_ok (s : MState) :
    begin busOK s =
      (Except.ok (),
        ⟨{ s.drv with
            output := { s.drv.output with rs := false, rw := false, data := 0x04 ||| (s.drv.entry_state ||| 2), e := false },
            display_state := s.drv.display_state ||| 4,
            entry_state := s.drv.entry_state ||| 2 },
          s.clock + 27,
          s.trace
            ++ [⟨s.drv.address, [TCA9534_REG_CONFIG, 0x00]⟩,
                ⟨s.drv.address, [TCA9534_REG_POLARITY, 0x00]⟩,
                ⟨s.drv.address, [TCA9534_REG_OUTPUT, 0x00]⟩]
            ++ initFrames s.drv.address false false s.drv.output.led 0x30
            ++ initFrames s.drv.address false false s.drv.output.led 0x30
            ++ initFrames s.drv.address false false s.drv.output.led 0x30
            ++ initFrames s.drv.address false false s.drv.output.led 0x20
            ++ cmdFrames s.drv.address false false s.drv.output.led 0x28
            ++ cmdFrames s.drv.address false false s.drv.output.led (0x08 ||| (s.drv.display_state ||| 4))
            ++ cmdFrames s.drv.address false false s.drv.output.led 0x01
            ++ cmdFrames s.drv.address false false s.drv.output.led (0x04 ||| (s.drv.entry_state ||| 2))⟩) := by
  simp [begin, M.bind_apply, M.getS, M.busWrite, busOK, initialize_lcd_ok]

theorem okB_ok (a : α) : okB (Except.ok a : Except Unit α) = true := rfl

theorem okB_error : okB (Except.error () : Except Unit α) = false := rfl

theorem Silent.noRetry {m : M α} (h : Silent m) (bus : Bus) : NoRetry bus m := by
  intro s hs
  obtain ⟨h1, h2, h3⟩ := h s
  refine ⟨by rw [h2, h3, hs], by rw [h2], fun _ i hi1 hi2 => absurd hi2 (by rw [h2] at hi2; omega), ?_⟩
  intro hbad
  rw [h1] at hbad
  exact absurd hbad (by simp)

theorem silent_pure (a : α) : Silent (M.pure a) := by
  intro s
  exact ⟨rfl, rfl, rfl⟩

theorem silent_getS : Silent M.getS := by
  intro s
  exact ⟨rfl, rfl, rfl⟩

theorem silent_modifyDrv (f : LcdI2c → LcdI2c) : Silent (M.modifyDrv f) := by
  intro s
  exact ⟨rfl, rfl, rfl⟩

theorem noRetry_busWrite (bus : Bus) (addr : Nat) (bytes : List Nat) :
    NoRetry bus (M.busWrite bus addr bytes) := by
  intro s hs
  cases h : bus s.clock with
  | true =>
    refine ⟨by simp [M.busWrite, hs], by simp [M.busWrite], ?_, ?_⟩
    · intro _ i hi1 hi2
      simp [M.busWrite] at hi2
      have : i = s.clock := by omega
      rw [this]
      exact h
    · intro hbad
      simp [M.busWrite, h, okB] at hbad
  | false =>
    refine ⟨by simp [M.busWrite, hs], by simp [M.busWrite], ?_, ?_⟩
    · intro hok
      simp [M.busWrite, h, okB] at hok
    · intro _
      refine ⟨by simp [M.busWrite], by simp [M.busWrite]; exact h, ?_⟩
      intro i hi1 hi2
      simp [M.busWrite] at hi2
      omega

theorem noRetry_i2c_write (bus : Bus) (v : Nat) : NoRetry bus (i2c_write bus v) := by
  intro s hs
  exact noRetry_busWrite bus s.drv.address [TCA9534_REG_OUTPUT, v] s hs

theorem noRetry_bind {bus : Bus} {m : M α} {f : α → M β}
    (hm : NoRetry bus m) (hf : ∀ a, NoRetry bus (f a)) :
    NoRetry bus (m >>= f) := by
  intro s hs
  have Hm := hm s hs
  rcases hr : m s with ⟨r, s1⟩
  rw [hr] at Hm
  cases r with
  | error err =>
    have heq : (m >>= f) s = (Except.error err, s1) := by
      rw [M.bind_apply, hr]
    rw [heq]
    exact Hm
  | ok a =>
    have heq : (m >>= f) s = f a s1 := by
      rw [M.bind_apply, hr]
    rw [heq]
    have hok : okB (Except.ok a : Except Unit α) = true := rfl
    have H1 : s1.clock = s1.trace.length := Hm.1
    have Hmono : s.clock ≤ s1.clock := Hm.2.1
    have Hall : ∀ i, s.clock ≤ i → i < s1.clock → bus i = true := Hm.2.2.1 hok
    have Hf := hf a s1 H1
    refine ⟨Hf.1, le_trans Hmono Hf.2.1, ?_, ?_⟩
    · intro hok2 i hi1 hi2
      by_cases hc : i < s1.clock
      · exact Hall i hi1 hc
      · exact Hf.2.2.1 hok2 i (by omega) hi2
    · intro hbad
      obtain ⟨hlt, hfail, hearlier⟩ := Hf.2.2.2 hbad
      refine ⟨by omega, hfail, ?_⟩
      intro i hi1 hi2
      by_cases hc : i < s1.clock
      · exact Hall i hi1 hc
      · exact hearlier i (by omega) hi2

theorem noRetry_lcd_write (bus : Bus) (b : Nat) (init : Bool) :
    NoRetry bus (lcd_write bus b init) := by
  unfold lcd_write
  refine noRetry_bind ((silent_modifyDrv _).noRetry bus) (fun _ => ?_)
  refine noRetry_bind ((silent_modifyDrv _).noRetry bus) (fun _ => ?_)
  refine noRetry_bind (silent_getS.noRetry bus) (fun s => ?_)
  refine noRetry_bind (noRetry_i2c_write bus _) (fun _ => ?_)
  refine noRetry_bind ((silent_modifyDrv _).noRetry bus) (fun _ => ?_)
  refine noRetry_bind (silent_getS.noRetry bus) (fun s2 => ?_)
  refine noRetry_bind (noRetry_i2c_write bus _) (fun _ => ?_)
  cases init with
  | true =>
    simp only [Bool.not_true]
    simpa using (silent_pure PUnit.unit).noRetry bus
  | false =>
    simp only [Bool.not_false, if_true]
    refine noRetry_bind ((silent_modifyDrv _).noRetry bus) (fun _ => ?_)
    refine noRetry_bind (silent_getS.noRetry bus) (fun s3 => ?_)
    refine noRetry_bind (noRetry_i2c_write bus _) (fun _ => ?_)
    refine noRetry_bind ((silent_modifyDrv _).noRetry bus) (fun _ => ?_)
    refine noRetry_bind (silent_getS.noRetry bus) (fun s4 => ?_)
    exact noRetry_i2c_write bus _

theorem noRetry_cmdOp (bus : Bus) (b : Nat) :
    NoRetry bus (do
      M.setRS false
      M.setRW false
      lcd_write bus b false) := by
  refine noRetry_bind ((silent_modifyDrv _).noRetry bus) (fun _ => ?_)
  refine noRetry_bind ((silent_modifyDrv _).noRetry bus) (fun _ => ?_)
  exact noRetry_lcd_write bus b false

theorem noRetry_clear (bus : Bus) : NoRetry bus (clear bus) := noRetry_cmdOp bus 0x01

theorem noRetry_home (bus : Bus) : NoRetry bus (home bus) := noRetry_cmdOp bus 0x02

theorem noRetry_scroll_display_left (bus : Bus) : NoRetry bus (scroll_display_left bus) :=
  noRetry_cmdOp bus 0x18

theorem noRetry_scroll_display_right (bus : Bus) : NoRetry bus (scroll_display_right bus) :=
  noRetry_cmdOp bus 0x1C

theorem noRetry_toggleDS (bus : Bus) (f : Nat → Nat) :
    NoRetry bus (do
      M.setRS false
      M.setRW false
      M.setDS f
      let s ← M.getS
      lcd_write bus (0x08 ||| s.drv.display_state) false) := by
  refine noRetry_bind ((silent_modifyDrv _).noRetry bus) (fun _ => ?_)
  refine noRetry_bind ((silent_modifyDrv _).noRetry bus) (fun _ => ?_)
  refine noRetry_bind ((silent_modifyDrv _).noRetry bus) (fun _ => ?_)
  refine noRetry_bind (silent_getS.noRetry bus) (fun s => ?_)
  exact noRetry_lcd_write bus _ false

theorem noRetry_toggleES (bus : Bus) (f : Nat → Nat) :
    NoRetry bus (do
      M.setRS false
      M.setRW false
      M.setES f
      let s ← M.getS
      lcd_write bus (0x04 ||| s.drv.entry_state) false) := by
  refine noRetry_bind ((silent_modifyDrv _).noRetry bus) (fun _ => ?_)
  refine noRetry_bind ((silent_modifyDrv _).noRetry bus) (fun _ => ?_)
  refine noRetry_bind ((silent_modifyDrv _).noRetry bus) (fun _ => ?_)
  refine noRetry_bind (silent_getS.noRetry bus) (fun s => ?_)
  exact noRetry_lcd_write bus _ false

theorem noRetry_display (bus : Bus) : NoRetry bus (display bus) := noRetry_toggleDS bus _

theorem noRetry_no_display (bus : Bus) : NoRetry bus (no_display bus) := noRetry_toggleDS bus _

theorem noRetry_cursor (bus : Bus) : NoRetry bus (cursor bus) := noRetry_toggleDS bus _

theorem noRetry_no_cursor (bus : Bus) : NoRetry bus (no_cursor bus) := noRetry_toggleDS bus _

theorem noRetry_blink (bus : Bus) : NoRetry bus (blink bus) := noRetry_toggleDS bus _

theorem noRetry_no_blink (bus : Bus) : NoRetry bus (no_blink bus) := noRetry_toggleDS bus _

theorem noRetry_left_to_right (bus : Bus) : NoRetry bus (left_to_right bus) :=
  noRetry_toggleES bus _

theorem noRetry_right_to_left (bus : Bus) : NoRetry bus (right_to_left bus) :=
  noRetry_toggleES bus _

theorem noRetry_autoscroll (bus : Bus) : NoRetry bus (autoscroll bus) := noRetry_toggleES bus _

theorem noRetry_no_autoscroll (bus : Bus) : NoRetry bus (no_autoscroll bus) :=
  noRetry_toggleES bus _

theorem noRetry_backlight (bus : Bus) : NoRetry bus (backlight bus) := by
  unfold backlight
  refine noRetry_bind ((silent_modifyDrv _).noRetry bus) (fun _ => ?_)
  refine noRetry_bind (silent_getS.noRetry bus) (fun s => ?_)
  exact noRetry_i2c_write bus _

theorem noRetry_no_backlight (bus : Bus) : NoRetry bus (no_backlight bus) := by
  unfold no_backlight
  refine noRetry_bind ((silent_modifyDrv _).noRetry bus) (fun _ => ?_)
  refine noRetry_bind (silent_getS.noRetry bus) (fun s => ?_)
  exact noRetry_i2c_write bus _

theorem noRetry_set_cursor (bus : Bus) (col row : Nat) :
    NoRetry bus (set_cursor bus col row) := by
  unfold set_cursor
  refine noRetry_bind ((silent_modifyDrv _).noRetry bus) (fun _ => ?_)
  refine noRetry_bind ((silent_modifyDrv _).noRetry bus) (fun _ => ?_)
  exact noRetry_lcd_write bus _ false

theorem noRetry_write_byte (bus : Bus) (b : Nat) : NoRetry bus (write_byte bus b) := by
  unfold write_byte
  refine noRetry_bind ((silent_modifyDrv _).noRetry bus) (fun _ => ?_)
  refine noRetry_bind ((silent_modifyDrv _).noRetry bus) (fun _ => ?_)
  exact noRetry_lcd_write bus b false

theorem noRetry_writeBytesLoop (bus : Bus) (l : List Nat) :
    NoRetry bus (writeBytesLoop bus l) := by
  induction l with
  | nil => exact (silent_pure ()).noRetry bus
  | cons b rest ih =>
    unfold writeBytesLoop
    exact noRetry_bind (noRetry_write_byte bus b) (fun _ => ih)

theorem noRetry_write_str (bus : Bus) (l : List Nat) : NoRetry bus (write_str bus l) :=
  noRetry_writeBytesLoop bus l

theorem noRetry_create_char (bus : Bus) (loc : Nat) (cm : List Nat) :
    NoRetry bus (create_char bus loc cm) := by
  unfold create_char
  refine noRetry_bind ((silent_modifyDrv _).noRetry bus) (fun _ => ?_)
  refine noRetry_bind ((silent_modifyDrv _).noRetry bus) (fun _ => ?_)
  refine noRetry_bind (noRetry_lcd_write bus _ false) (fun _ => ?_)
  refine noRetry_bind (noRetry_writeBytesLoop bus cm) (fun _ => ?_)
  exact noRetry_set_cursor bus 0 0

theorem noRetry_initialize_lcd (bus : Bus) : NoRetry bus (initialize_lcd bus) := by
  unfold initialize_lcd
  refine noRetry_bind ((silent_modifyDrv _).noRetry bus) (fun _ => ?_)
  refine noRetry_bind ((silent_modifyDrv _).noRetry bus) (fun _ => ?_)
  refine noRetry_bind (noRetry_lcd_write bus _ true) (fun _ => ?_)
  refine noRetry_bind (noRetry_lcd_write bus _ true) (fun _ => ?_)
  refine noRetry_bind (noRetry_lcd_write bus _ true) (fun _ => ?_)
  refine noRetry_bind (noRetry_lcd_write bus _ true) (fun _ => ?_)
  refine noRetry_bind (noRetry_lcd_write bus _ false) (fun _ => ?_)
  refine noRetry_bind (noRetry_display bus) (fun _ => ?_)
  refine noRetry_bind (noRetry_clear bus) (fun _ => ?_)
  exact noRetry_left_to_right bus

theorem noRetry_begin (bus : Bus) : NoRetry bus (begin bus) := by
  unfold begin
  refine noRetry_bind (silent_getS.noRetry bus) (fun s => ?_)
  refine noRetry_bind (by intro s1 hs; exact noRetry_busWrite bus _ _ s1 hs) (fun _ => ?_)
  refine noRetry_bind (silent_getS.noRetry bus) (fun s2 => ?_)
  refine noRetry_bind (by intro s1 hs; exact noRetry_busWrite bus _ _ s1 hs) (fun _ => ?_)
  refine noRetry_bind (silent_getS.noRetry bus) (fun s3 => ?_)
  refine noRetry_bind (by intro s1 hs; exact noRetry_busWrite bus _ _ s1 hs) (fun _ => ?_)
  exact noRetry_initialize_lcd bus

theorem noRetry_op (bus : Bus) (op : Op) : NoRetry bus (op.run bus) := by
  cases op with
  | opBegin => exact noRetry_begin bus
  | opClear => exact noRetry_clear bus
  | opHome => exact noRetry_home bus
  | opDisplay => exact noRetry_display bus
  | opNoDisplay => exact noRetry_no_display bus
  | opCursor => exact noRetry_cursor bus
  | opNoCursor => exact noRetry_no_cursor bus
  | opBlink => exact noRetry_blink bus
  | opNoBlink => exact noRetry_no_blink bus
  | opLeftToRight => exact noRetry_left_to_right bus
  | opRightToLeft => exact noRetry_right_to_left bus
  | opAutoscroll => exact noRetry_autoscroll bus
  | opNoAutoscroll => exact noRetry_no_autoscroll bus
  | opScrollLeft => exact noRetry_scroll_display_left bus
  | opScrollRight => exact noRetry_scroll_display_right bus
  | opBacklight => exact noRetry_backlight bus
  | opNoBacklight => exact noRetry_no_backlight bus
  | opSetCursor col row => exact noRetry_set_cursor bus col row
  | opCreateChar loc cm => exact noRetry_create_char bus loc cm
  | opWriteByte b => exact noRetry_write_byte bus b
  | opWriteStr l => exact noRetry_write_str bus l

theorem drvRel_bind {P : LcdI2c → LcdI2c → Prop}
    (htrans : ∀ a b c, P a b → P b c → P a c)
    {m : M α} {f : α → M β} (hm : DrvRel m P) (hf : ∀ a, DrvRel (f a) P) :
    DrvRel (m >>= f) P := by
  intro s
  have Hm := hm s
  rcases hr : m s with ⟨r, s1⟩
  rw [hr] at Hm
  cases r with
  | error err =>
    have heq : (m >>= f) s = (Except.error err, s1) := by rw [M.bind_apply, hr]
    rw [heq]
    exact Hm
  | ok a =>
    have heq : (m >>= f) s = f a s1 := by rw [M.bind_apply, hr]
    rw [heq]
    exact htrans _ _ _ Hm (hf a s1)

/-- Relation: flag bytes, backlight shadow and address are unchanged. -/
def PFlags (a b : LcdI2c) : Prop :=
  b.display_state = a.display_state ∧ b.entry_state = a.entry_state ∧
    b.output.led = a.output.led ∧ b.address = a.address

theorem pflags_trans (a b c : LcdI2c) (h1 : PFlags a b) (h2 : PFlags b c) : PFlags a c := by
  obtain ⟨x1, x2, x3, x4⟩ := h1
  obtain ⟨y1, y2, y3, y4⟩ := h2
  exact ⟨y1.trans x1, y2.trans x2, y3.trans x3, y4.trans x4⟩

theorem PFlags.refl (a : LcdI2c) : PFlags a a := ⟨rfl, rfl, rfl, rfl⟩

/-- Relation: backlight shadow unchanged. -/
def PLed (a b : LcdI2c) : Prop := b.output.led = a.output.led

theorem pled_trans (a b c : LcdI2c) (h1 : PLed a b) (h2 : PLed b c) : PLed a c := Eq.trans h2 h1

/-- Relation: flag bytes stay within their opcode-free ranges. -/
def PInv (a b : LcdI2c) : Prop :=
  a.display_state < 8 ∧ a.entry_state < 4 → b.display_state < 8 ∧ b.entry_state < 4

theorem pinv_trans (a b c : LcdI2c) (h1 : PInv a b) (h2 : PInv b c) : PInv a c :=
  fun h => h2 (h1 h)

theorem drvRel_busWrite {P : LcdI2c → LcdI2c → Prop} (hrefl : ∀ d, P d d)
    (bus : Bus) (addr : Nat) (bytes : List Nat) : DrvRel (M.busWrite bus addr bytes) P := by
  intro s
  exact hrefl s.drv

theorem drvRel_i2c_write {P : LcdI2c → LcdI2c → Prop} (hrefl : ∀ d, P d d)
    (bus : Bus) (v : Nat) : DrvRel (i2c_write bus v) P := by
  intro s
  exact hrefl s.drv

theorem drvRel_getS {P : LcdI2c → LcdI2c → Prop} (hrefl : ∀ d, P d d) :
    DrvRel M.getS P := by
  intro s
  exact hrefl s.drv

theorem drvRel_pure {P : LcdI2c → LcdI2c → Prop} (hrefl : ∀ d, P d d) (a : α) :
    DrvRel (M.pure a) P := by
  intro s
  exact hrefl s.drv

theorem drvRel_modifyDrv {P : LcdI2c → LcdI2c → Prop} (f : LcdI2c → LcdI2c)
    (h : ∀ d, P d (f d)) : DrvRel (M.modifyDrv f) P := by
  intro s
  exact h s.drv

theorem pflags_lcd_write (bus : Bus) (b : Nat) (init : Bool) :
    DrvRel (lcd_write bus b init) PFlags := by
  unfold lcd_write
  refine drvRel_bind pflags_trans (drvRel_modifyDrv _ (fun d => ⟨rfl, rfl, rfl, rfl⟩)) (fun _ => ?_)
  refine drvRel_bind pflags_trans (drvRel_modifyDrv _ (fun d => ⟨rfl, rfl, rfl, rfl⟩)) (fun _ => ?_)
  refine drvRel_bind pflags_trans (drvRel_getS PFlags.refl) (fun s => ?_)
  refine drvRel_bind pflags_trans (drvRel_i2c_write PFlags.refl bus _) (fun _ => ?_)
  refine drvRel_bind pflags_trans (drvRel_modifyDrv _ (fun d => ⟨rfl, rfl, rfl, rfl⟩)) (fun _ => ?_)
  refine drvRel_bind pflags_trans (drvRel_getS PFlags.refl) (fun s2 => ?_)
  refine drvRel_bind pflags_trans (drvRel_i2c_write PFlags.refl bus _) (fun _ => ?_)
  cases init with
  | true =>
    simpa using drvRel_pure PFlags.refl PUnit.unit
  | false =>
    simp only [Bool.not_false, if_true]
    refine drvRel_bind pflags_trans (drvRel_modifyDrv _ (fun d => ⟨rfl, rfl, rfl, rfl⟩)) (fun _ => ?_)
    refine drvRel_bind pflags_trans (drvRel_getS PFlags.refl) (fun s3 => ?_)
    refine drvRel_bind pflags_trans (drvRel_i2c_write PFlags.refl bus _) (fun _ => ?_)
    refine drvRel_bind pflags_trans (drvRel_modifyDrv _ (fun d => ⟨rfl, rfl, rfl, rfl⟩)) (fun _ => ?_)
    refine drvRel_bind pflags_trans (drvRel_getS PFlags.refl) (fun s4 => ?_)
    exact drvRel_i2c_write PFlags.refl bus _

theorem or_lt_8 (a b : Nat) (ha : a < 8) (hb : b < 8) : a ||| b < 8 := by
  have h := Nat.or_lt_two_pow (n := 3) (x := a) (y := b) (by simpa using ha) (by simpa using hb)
  simpa using h

theorem or_lt_4 (a b : Nat) (ha : a < 4) (hb : b < 4) : a ||| b < 4 := by
  have h := Nat.or_lt_two_pow (n := 2) (x := a) (y := b) (by simpa using ha) (by simpa using hb)
  simpa using h

theorem and_lt_of_lt (a m c : Nat) (ha : a < c) : a &&& m < c :=
  lt_of_le_of_lt Nat.and_le_left ha

theorem PFlags.toPInv {a b : LcdI2c} (h : PFlags a b) : PInv a b := by
  intro hi
  rw [h.1, h.2.1]
  exact hi

theorem PFlags.toPLed {a b : LcdI2c} (h : PFlags a b) : PLed a b := h.2.2.1

theorem DrvRel.weaken {m : M α} {P Q : LcdI2c → LcdI2c → Prop}
    (h : DrvRel m P) (w : ∀ a b, P a b → Q a b) : DrvRel m Q := by
  intro s
  exact w _ _ (h s)

theorem pflags_cmdOp (bus : Bus) (b : Nat) :
    DrvRel (do
      M.setRS false
      M.setRW false
      lcd_write bus b false) PFlags := by
  refine drvRel_bind pflags_trans (drvRel_modifyDrv _ (fun d => ⟨rfl, rfl, rfl, rfl⟩)) (fun _ => ?_)
  refine drvRel_bind pflags_trans (drvRel_modifyDrv _ (fun d => ⟨rfl, rfl, rfl, rfl⟩)) (fun _ => ?_)
  exact pflags_lcd_write bus b false

theorem pflags_clear (bus : Bus) : DrvRel (clear bus) PFlags := pflags_cmdOp bus 0x01

theorem pflags_home (bus : Bus) : DrvRel (home bus) PFlags := pflags_cmdOp bus 0x02

theorem pflags_scroll_left (bus : Bus) : DrvRel (scroll_display_left bus) PFlags :=
  pflags_cmdOp bus 0x18

theorem pflags_scroll_right (bus : Bus) : DrvRel (scroll_display_right bus) PFlags :=
  pflags_cmdOp bus 0x1C

theorem pflags_set_cursor (bus : Bus) (col row : Nat) :
    DrvRel (set_cursor bus col row) PFlags := by
  unfold set_cursor
  refine drvRel_bind pflags_trans (drvRel_modifyDrv _ (fun d => ⟨rfl, rfl, rfl, rfl⟩)) (fun _ => ?_)
  refine drvRel_bind pflags_trans (drvRel_modifyDrv _ (fun d => ⟨rfl, rfl, rfl, rfl⟩)) (fun _ => ?_)
  exact pflags_lcd_write bus _ false

theorem pflags_write_byte (bus : Bus) (b : Nat) : DrvRel (write_byte bus b) PFlags := by
  unfold write_byte
  refine drvRel_bind pflags_trans (drvRel_modifyDrv _ (fun d => ⟨rfl, rfl, rfl, rfl⟩)) (fun _ => ?_)
  refine drvRel_bind pflags_trans (drvRel_modifyDrv _ (fun d => ⟨rfl, rfl, rfl, rfl⟩)) (fun _ => ?_)
  exact pflags_lcd_write bus b false

theorem pflags_writeBytesLoop (bus : Bus) (l : List Nat) :
    DrvRel (writeBytesLoop bus l) PFlags := by
  induction l with
  | nil => exact drvRel_pure PFlags.refl ()
  | cons b rest ih =>
    unfold writeBytesLoop
    exact drvRel_bind pflags_trans (pflags_write_byte bus b) (fun _ => ih)

theorem pflags_write_str (bus : Bus) (l : List Nat) : DrvRel (write_str bus l) PFlags :=
  pflags_writeBytesLoop bus l

theorem pflags_create_char (bus : Bus) (loc : Nat) (cm : List Nat) :
    DrvRel (create_char bus loc cm) PFlags := by
  unfold create_char
  refine drvRel_bind pflags_trans (drvRel_modifyDrv _ (fun d => ⟨rfl, rfl, rfl, rfl⟩)) (fun _ => ?_)
  refine drvRel_bind pflags_trans (drvRel_modifyDrv _ (fun d => ⟨rfl, rfl, rfl, rfl⟩)) (fun _ => ?_)
  refine drvRel_bind pflags_trans (pflags_lcd_write bus _ false) (fun _ => ?_)
  refine drvRel_bind pflags_trans (pflags_writeBytesLoop bus cm) (fun _ => ?_)
  exact pflags_set_cursor bus 0 0

theorem pled_toggleDS (bus : Bus) (f : Nat → Nat) :
    DrvRel (do
      M.setRS false
      M.setRW false
      M.setDS f
      let s ← M.getS
      lcd_write bus (0x08 ||| s.drv.display_state) false) PLed := by
  refine drvRel_bind pled_trans (drvRel_modifyDrv _ (fun d => rfl)) (fun _ => ?_)
  refine drvRel_bind pled_trans (drvRel_modifyDrv _ (fun d => rfl)) (fun _ => ?_)
  refine drvRel_bind pled_trans (drvRel_modifyDrv _ (fun d => rfl)) (fun _ => ?_)
  refine drvRel_bind pled_trans (drvRel_getS (fun d => rfl)) (fun s => ?_)
  exact (pflags_lcd_write bus _ false).weaken (fun a b h => h.toPLed)

theorem pled_toggleES (bus : Bus) (f : Nat → Nat) :
    DrvRel (do
      M.setRS false
      M.setRW false
      M.setES f
      let s ← M.getS
      lcd_write bus (0x04 ||| s.drv.entry_state) false) PLed := by
  refine drvRel_bind pled_trans (drvRel_modifyDrv _ (fun d => rfl)) (fun _ => ?_)
  refine drvRel_bind pled_trans (drvRel_modifyDrv _ (fun d => rfl)) (fun _ => ?_)
  refine drvRel_bind pled_trans (drvRel_modifyDrv _ (fun d => rfl)) (fun _ => ?_)
  refine drvRel_bind pled_trans (drvRel_getS (fun d => rfl)) (fun s => ?_)
  exact (pflags_lcd_write bus _ false).weaken (fun a b h => h.toPLed)

theorem pled_initialize_lcd (bus : Bus) : DrvRel (initialize_lcd bus) PLed := by
  unfold initialize_lcd
  refine drvRel_bind pled_trans (drvRel_modifyDrv _ (fun d => rfl)) (fun _ => ?_)
  refine drvRel_bind pled_trans (drvRel_modifyDrv _ (fun d => rfl)) (fun _ => ?_)
  refine drvRel_bind pled_trans ((pflags_lcd_write bus _ true).weaken (fun a b h => h.toPLed)) (fun _ => ?_)
  refine drvRel_bind pled_trans ((pflags_lcd_write bus _ true).weaken (fun a b h => h.toPLed)) (fun _ => ?_)
  refine drvRel_bind pled_trans ((pflags_lcd_write bus _ true).weaken (fun a b h => h.toPLed)) (fun _ => ?_)
  refine drvRel_bind pled_trans ((pflags_lcd_write bus _ true).weaken (fun a b h => h.toPLed)) (fun _ => ?_)
  refine drvRel_bind pled_trans ((pflags_lcd_write bus _ false).weaken (fun a b h => h.toPLed)) (fun _ => ?_)
  refine drvRel_bind pled_trans (pled_toggleDS bus _) (fun _ => ?_)
  refine drvRel_bind pled_trans ((pflags_clear bus).weaken (fun a b h => h.toPLed)) (fun _ => ?_)
  exact pled_toggleES bus _

theorem pled_begin (bus : Bus) : DrvRel (begin bus) PLed := by
  unfold begin
  refine drvRel_bind pled_trans (drvRel_getS (fun d => rfl)) (fun s => ?_)
  refine drvRel_bind pled_trans (drvRel_busWrite (P := PLed) (fun d => rfl) bus _ _) (fun _ => ?_)
  refine drvRel_bind pled_trans (drvRel_getS (fun d => rfl)) (fun s2 => ?_)
  refine drvRel_bind pled_trans (drvRel_busWrite (P := PLed) (fun d => rfl) bus _ _) (fun _ => ?_)
  refine drvRel_bind pled_trans (drvRel_getS (fun d => rfl)) (fun s3 => ?_)
  refine drvRel_bind pled_trans (drvRel_busWrite (P := PLed) (fun d => rfl) bus _ _) (fun _ => ?_)
  exact pled_initialize_lcd bus

theorem pinv_toggleDS (bus : Bus) (f : Nat → Nat) (hf : ∀ v, v < 8 → f v < 8) :
    DrvRel (do
      M.setRS false
      M.setRW false
      M.setDS f
      let s ← M.getS
      lcd_write bus (0x08 ||| s.drv.display_state) false) PInv := by
  refine drvRel_bind pinv_trans (drvRel_modifyDrv _ (fun d h => h)) (fun _ => ?_)
  refine drvRel_bind pinv_trans (drvRel_modifyDrv _ (fun d h => h)) (fun _ => ?_)
  refine drvRel_bind pinv_trans (drvRel_modifyDrv _ (fun d h => ⟨hf _ h.1, h.2⟩)) (fun _ => ?_)
  refine drvRel_bind pinv_trans (drvRel_getS (fun d h => h)) (fun s => ?_)
  exact (pflags_lcd_write bus _ false).weaken (fun a b h => h.toPInv)

theorem pinv_toggleES (bus : Bus) (f : Nat → Nat) (hf : ∀ v, v < 4 → f v < 4) :
    DrvRel (do
      M.setRS false
      M.setRW false
      M.setES f
      let s ← M.getS
      lcd_write bus (0x04 ||| s.drv.entry_state) false) PInv := by
  refine drvRel_bind pinv_trans (drvRel_modifyDrv _ (fun d h => h)) (fun _ => ?_)
  refine drvRel_bind pinv_trans (drvRel_modifyDrv _ (fun d h => h)) (fun _ => ?_)
  refine drvRel_bind pinv_trans (drvRel_modifyDrv _ (fun d h => ⟨h.1, hf _ h.2⟩)) (fun _ => ?_)
  refine drvRel_bind pinv_trans (drvRel_getS (fun d h => h)) (fun s => ?_)
  exact (pflags_lcd_write bus _ false).weaken (fun a b h => h.toPInv)

theorem pinv_backlight (bus : Bus) : DrvRel (backlight bus) PInv := by
  unfold backlight
  refine drvRel_bind pinv_trans (drvRel_modifyDrv _ (fun d h => h)) (fun _ => ?_)
  refine drvRel_bind pinv_trans (drvRel_getS (fun d h => h)) (fun s => ?_)
  exact drvRel_i2c_write (P := PInv) (fun d h => h) bus _

theorem pinv_no_backlight (bus : Bus) : DrvRel (no_backlight bus) PInv := by
  unfold no_backlight
  refine drvRel_bind pinv_trans (drvRel_modifyDrv _ (fun d h => h)) (fun _ => ?_)
  refine drvRel_bind pinv_trans (drvRel_getS (fun d h => h)) (fun s => ?_)
  exact drvRel_i2c_write (P := PInv) (fun d h => h) bus _

theorem pinv_initialize_lcd (bus : Bus) : DrvRel (initialize_lcd bus) PInv := by
  unfold initialize_lcd
  refine drvRel_bind pinv_trans (drvRel_modifyDrv _ (fun d h => h)) (fun _ => ?_)
  refine drvRel_bind pinv_trans (drvRel_modifyDrv _ (fun d h => h)) (fun _ => ?_)
  refine drvRel_bind pinv_trans ((pflags_lcd_write bus _ true).weaken (fun a b h => h.toPInv)) (fun _ => ?_)
  refine drvRel_bind pinv_trans ((pflags_lcd_write bus _ true).weaken (fun a b h => h.toPInv)) (fun _ => ?_)
  refine drvRel_bind pinv_trans ((pflags_lcd_write bus _ true).weaken (fun a b h => h.toPInv)) (fun _ => ?_)
  refine drvRel_bind pinv_trans ((pflags_lcd_write bus _ true).weaken (fun a b h => h.toPInv)) (fun _ => ?_)
  refine drvRel_bind pinv_trans ((pflags_lcd_write bus _ false).weaken (fun a b h => h.toPInv)) (fun _ => ?_)
  refine drvRel_bind pinv_trans (pinv_toggleDS bus _ (fun v hv => or_lt_8 v 4 hv (by norm_num))) (fun _ => ?_)
  refine drvRel_bind pinv_trans ((pflags_clear bus).weaken (fun a b h => h.toPInv)) (fun _ => ?_)
  exact pinv_toggleES bus _ (fun v hv => or_lt_4 v 2 hv (by norm_num))

theorem pinv_begin (bus : Bus) : DrvRel (begin bus) PInv := by
  unfold begin
  refine drvRel_bind pinv_trans (drvRel_getS (fun d h => h)) (fun s => ?_)
  refine drvRel_bind pinv_trans (drvRel_busWrite (P := PInv) (fun d h => h) bus _ _) (fun _ => ?_)
  refine drvRel_bind pinv_trans (drvRel_getS (fun d h => h)) (fun s2 => ?_)
  refine drvRel_bind pinv_trans (drvRel_busWrite (P := PInv) (fun d h => h) bus _ _) (fun _ => ?_)
  refine drvRel_bind pinv_trans (drvRel_getS (fun d h => h)) (fun s3 => ?_)
  refine drvRel_bind pinv_trans (drvRel_busWrite (P := PInv) (fun d h => h) bus _ _) (fun _ => ?_)
  exact pinv_initialize_lcd bus

theorem pinv_op (bus : Bus) (op : Op) : DrvRel (op.run bus) PInv := by
  cases op with
  | opBegin => exact pinv_begin bus
  | opClear => exact (pflags_clear bus).weaken (fun a b h => h.toPInv)
  | opHome => exact (pflags_home bus).weaken (fun a b h => h.toPInv)
  | opDisplay => exact pinv_toggleDS bus _ (fun v hv => or_lt_8 v 4 hv (by norm_num))
  | opNoDisplay => exact pinv_toggleDS bus _ (fun v hv => and_lt_of_lt v 0xFB 8 hv)
  | opCursor => exact pinv_toggleDS bus _ (fun v hv => or_lt_8 v 2 hv (by norm_num))
  | opNoCursor => exact pinv_toggleDS bus _ (fun v hv => and_lt_of_lt v 0xFD 8 hv)
  | opBlink => exact pinv_toggleDS bus _ (fun v hv => or_lt_8 v 1 hv (by norm_num))
  | opNoBlink => exact pinv_toggleDS bus _ (fun v hv => and_lt_of_lt v 0xFE 8 hv)
  | opLeftToRight => exact pinv_toggleES bus _ (fun v hv => or_lt_4 v 2 hv (by norm_num))
  | opRightToLeft => exact pinv_toggleES bus _ (fun v hv => and_lt_of_lt v 0xFD 4 hv)
  | opAutoscroll => exact pinv_toggleES bus _ (fun v hv => or_lt_4 v 1 hv (by norm_num))
  | opNoAutoscroll => exact pinv_toggleES bus _ (fun v hv => and_lt_of_lt v 0xFE 4 hv)
  | opScrollLeft => exact (pflags_scroll_left bus).weaken (fun a b h => h.toPInv)
  | opScrollRight => exact (pflags_scroll_right bus).weaken (fun a b h => h.toPInv)
  | opBacklight => exact pinv_backlight bus
  | opNoBacklight => exact pinv_no_backlight bus
  | opSetCursor col row => exact (pflags_set_cursor bus col row).weaken (fun a b h => h.toPInv)
  | opCreateChar loc cm => exact (pflags_create_char bus loc cm).weaken (fun a b h => h.toPInv)
  | opWriteByte b => exact (pflags_write_byte bus b).weaken (fun a b h => h.toPInv)
  | opWriteStr l => exact (pflags_write_str bus l).weaken (fun a b h => h.toPInv)

theorem pinv_runOps (bus : Bus) (ops : List Op) : DrvRel (runOps bus ops) PInv := by
  induction ops with
  | nil => exact drvRel_pure (P := PInv) (fun d h => h) ()
  | cons op rest ih =>
    unfold runOps
    exact drvRel_bind pinv_trans (pinv_op bus op) (fun _ => ih)

theorem pled_op (bus : Bus) (op : Op) (h1 : op ≠ Op.opBacklight) (h2 : op ≠ Op.opNoBacklight) :
    DrvRel (op.run bus) PLed := by
  cases op with
  | opBegin => exact pled_begin bus
  | opClear => exact (pflags_clear bus).weaken (fun a b h => h.toPLed)
  | opHome => exact (pflags_home bus).weaken (fun a b h => h.toPLed)
  | opDisplay => exact pled_toggleDS bus _
  | opNoDisplay => exact pled_toggleDS bus _
  | opCursor => exact pled_toggleDS bus _
  | opNoCursor => exact pled_toggleDS bus _
  | opBlink => exact pled_toggleDS bus _
  | opNoBlink => exact pled_toggleDS bus _
  | opLeftToRight => exact pled_toggleES bus _
  | opRightToLeft => exact pled_toggleES bus _
  | opAutoscroll => exact pled_toggleES bus _
  | opNoAutoscroll => exact pled_toggleES bus _
  | opScrollLeft => exact (pflags_scroll_left bus).weaken (fun a b h => h.toPLed)
  | opScrollRight => exact (pflags_scroll_right bus).weaken (fun a b h => h.toPLed)
  | opBacklight => exact absurd rfl h1
  | opNoBacklight => exact absurd rfl h2
  | opSetCursor col row => exact (pflags_set_cursor bus col row).weaken (fun a b h => h.toPLed)
  | opCreateChar loc cm => exact (pflags_create_char bus loc cm).weaken (fun a b h => h.toPLed)
  | opWriteByte b => exact (pflags_write_byte bus b).weaken (fun a b h => h.toPLed)
  | opWriteStr l => exact (pflags_write_str bus l).weaken (fun a b h => h.toPLed)

theorem or_lt_256 (a b : Nat) (ha : a < 256) (hb : b < 256) : a ||| b < 256 := by
  have h := Nat.or_lt_two_pow (n := 8) (x := a) (y := b) (by simpa using ha) (by simpa using hb)
  simpa using h

theorem toggleDS_effect (bus : Bus) (f : Nat → Nat) (s : MState) :
    ((do
      M.setRS false
      M.setRW false
      M.setDS f
      let s ← M.getS
      lcd_write bus (0x08 ||| s.drv.display_state) false : M Unit) s).2.drv.display_state =
        f s.drv.display_state ∧
    ((do
      M.setRS false
      M.setRW false
      M.setDS f
      let s ← M.getS
      lcd_write bus (0x08 ||| s.drv.display_state) false : M Unit) s).2.drv.entry_state =
        s.drv.entry_state ∧
    ((do
      M.setRS false
      M.setRW false
      M.setDS f
      let s ← M.getS
      lcd_write bus (0x08 ||| s.drv.display_state) false : M Unit) s).2.drv.output.led =
        s.drv.output.led := by
  have hstep : ((do
      M.setRS false
      M.setRW false
      M.setDS f
      let s ← M.getS
      lcd_write bus (0x08 ||| s.drv.display_state) false : M Unit) s) =
      lcd_write bus (0x08 ||| f s.drv.display_state) false
        ⟨{ s.drv with output := { s.drv.output with rs := false, rw := false }, display_state := f s.drv.display_state }, s.clock, s.trace⟩ := rfl
  rw [hstep]
  have h := pflags_lcd_write bus (0x08 ||| f s.drv.display_state) false
    ⟨{ s.drv with output := { s.drv.output with rs := false, rw := false }, display_state := f s.drv.display_state }, s.clock, s.trace⟩
  exact ⟨h.1, h.2.1, h.2.2.1⟩

theorem toggleES_effect (bus : Bus) (f : Nat → Nat) (s : MState) :
    ((do
      M.setRS false
      M.setRW false
      M.setES f
      let s ← M.getS
      lcd_write bus (0x04 ||| s.drv.entry_state) false : M Unit) s).2.drv.entry_state =
        f s.drv.entry_state ∧
    ((do
      M.setRS false
      M.setRW false
      M.setES f
      let s ← M.getS
      lcd_write bus (0x04 ||| s.drv.entry_state) false : M Unit) s).2.drv.display_state =
        s.drv.display_state ∧
    ((do
      M.setRS false
      M.setRW false
      M.setES f
      let s ← M.getS
      lcd_write bus (0x04 ||| s.drv.entry_state) false : M Unit) s).2.drv.output.led =
        s.drv.output.led := by
  have hstep : ((do
      M.setRS false
      M.setRW false
      M.setES f
      let s ← M.getS
      lcd_write bus (0x04 ||| s.drv.entry_state) false : M Unit) s) =
      lcd_write bus (0x04 ||| f s.drv.entry_state) false
        ⟨{ s.drv with output := { s.drv.output with rs := false, rw := false }, entry_state := f s.drv.entry_state }, s.clock, s.trace⟩ := rfl
  rw [hstep]
  have h := pflags_lcd_write bus (0x04 ||| f s.drv.entry_state) false
    ⟨{ s.drv with output := { s.drv.output with rs := false, rw := false }, entry_state := f s.drv.entry_state }, s.clock, s.trace⟩
  exact ⟨h.2.1, h.1, h.2.2.1⟩

theorem backlight_drv (bus : Bus) (s : MState) :
    ((backlight bus) s).2.drv = { s.drv with output := { s.drv.output with led := true } } := by
  simp [backlight, M.bind_apply, M.getS, M.setLED, M.modifyDrv, i2c_write, M.busWrite]

theorem no_backlight_drv (bus : Bus) (s : MState) :
    ((no_backlight bus) s).2.drv = { s.drv with output := { s.drv.output with led := false } } := by
  simp [no_backlight, M.bind_apply, M.getS, M.setLED, M.modifyDrv, i2c_write, M.busWrite]

theorem Pulsed.append {l1 l2 : List Nat} (h1 : Pulsed l1) (h2 : Pulsed l2) :
    Pulsed (l1 ++ l2) := by
  induction h1 with
  | nil => simpa using h2
  | low v rest h hr ih => exact Pulsed.low v _ h ih
  | pulse v rest h hr ih => exact Pulsed.pulse v _ h ih

set_option maxRecDepth 4096 in
theorem pulse_facts (rs rw led : Bool) : ∀ b, b < 256 →
    (OutputState.get_high_data ⟨rs, rw, true, led, b⟩ &&& 4 = 4 ∧
     OutputState.get_high_data ⟨rs, rw, false, led, b⟩ =
       OutputState.get_high_data ⟨rs, rw, true, led, b⟩ - 4) ∧
    (OutputState.get_low_data ⟨rs, rw, true, led, b⟩ &&& 4 = 4 ∧
     OutputState.get_low_data ⟨rs, rw, false, led, b⟩ =
       OutputState.get_low_data ⟨rs, rw, true, led, b⟩ - 4) := by
  rcases rs <;> rcases rw <;> rcases led <;> decide

theorem bytesOf_append (l1 l2 : List Tx) : bytesOf (l1 ++ l2) = bytesOf l1 ++ bytesOf l2 := by
  simp [bytesOf]

theorem bytesOf_cmdFrames (addr : Nat) (rs rw led : Bool) (b : Nat) :
    bytesOf (cmdFrames addr rs rw led b) =
      [OutputState.get_high_data ⟨rs, rw, true, led, b⟩,
       OutputState.get_high_data ⟨rs, rw, false, led, b⟩,
       OutputState.get_low_data ⟨rs, rw, true, led, b⟩,
       OutputState.get_low_data ⟨rs, rw, false, led, b⟩] := rfl

theorem bytesOf_initFrames (addr : Nat) (rs rw led : Bool) (b : Nat) :
    bytesOf (initFrames addr rs rw led b) =
      [OutputState.get_high_data ⟨rs, rw, true, led, b⟩,
       OutputState.get_high_data ⟨rs, rw, false, led, b⟩] := rfl

theorem pulsed_cmdFrames (addr : Nat) (rs rw led : Bool) (b : Nat) (hb : b < 256) :
    Pulsed (bytesOf (cmdFrames addr rs rw led b)) := by
  have h := pulse_facts rs rw led b hb
  rw [bytesOf_cmdFrames, h.1.2, h.2.2]
  exact Pulsed.pulse _ _ h.1.1 (Pulsed.pulse _ _ h.2.1 Pulsed.nil)

theorem pulsed_initFrames (addr : Nat) (rs rw led : Bool) (b : Nat) (hb : b < 256) :
    Pulsed (bytesOf (initFrames addr rs rw led b)) := by
  have h := pulse_facts rs rw led b hb
  rw [bytesOf_initFrames, h.1.2]
  exact Pulsed.pulse _ _ h.1.1 Pulsed.nil

theorem pulsed_dataFramesList (addr : Nat) (led : Bool) (l : List Nat)
    (hl : ∀ b ∈ l, b < 256) : Pulsed (bytesOf (dataFramesList addr led l)) := by
  induction l with
  | nil => exact Pulsed.nil
  | cons b rest ih =>
    rw [dataFramesList, bytesOf_append]
    exact Pulsed.append
      (pulsed_cmdFrames addr true false led b (hl b (by simp)))
      (ih (fun x hx => hl x (by simp [hx])))

set_option maxRecDepth 4096 in
theorem decode_high (rs rw e led : Bool) : ∀ b, b < 256 →
    decodeSig (OutputState.get_high_data ⟨rs, rw, e, led, b⟩) = (rs, rw, e, led, b &&& 0xF0) := by
  rcases rs <;> rcases rw <;> rcases e <;> rcases led <;> decide

set_option maxRecDepth 4096 in
theorem decode_low (rs rw e led : Bool) : ∀ b, b < 256 →
    decodeSig (OutputState.get_low_data ⟨rs, rw, e, led, b⟩) =
      (rs, rw, e, led, (b &&& 0x0F) <<< 4) := by
  rcases rs <;> rcases rw <;> rcases e <;> rcases led <;> decide

theorem fmtSpec_pure_ok (bus : Bus) : FmtSpec bus (M.pure (Except.ok ())) := by
  intro s hs
  refine ⟨hs, le_refl _, ⟨Except.ok (), rfl⟩, ?_, ?_⟩
  · intro _ i hi1 hi2
    exact absurd hi2 (by simp [M.pure] at hi2 ⊢; omega)
  · intro hbad
    simp [M.pure] at hbad

theorem FmtSpec.silentBind {bus : Bus} {m : M α} (hm : Silent m)
    {f : α → M (Except Unit Unit)} (hf : ∀ a, FmtSpec bus (f a)) :
    FmtSpec bus (m >>= f) := by
  intro s hs
  obtain ⟨h1, h2, h3⟩ := hm s
  rcases hr : m s with ⟨r, s1⟩
  cases r with
  | error err => rw [hr] at h1; simp [okB] at h1
  | ok a =>
    have heq : (m >>= f) s = f a s1 := by rw [M.bind_apply, hr]
    rw [hr] at h2 h3
    have hs1 : s1.clock = s1.trace.length := by
      simp only at h2 h3
      rw [h2, h3, hs]
    have H := hf a s1 hs1
    rw [heq]
    simp only at h2
    rw [h2] at H
    exact H

theorem FmtSpec.checkedWrite {bus : Bus} (v : Nat) {k : M (Except Unit Unit)}
    (hk : FmtSpec bus k) :
    FmtSpec bus (try_i2c_write bus v >>= fun ok1 =>
      if !ok1 then M.pure (Except.error ()) else k) := by
  intro s hs
  have hstep : (try_i2c_write bus v >>= fun ok1 =>
      if !ok1 then M.pure (Except.error ()) else k) s =
      (if !(bus s.clock) then M.pure (Except.error ()) else k)
        { s with clock := s.clock + 1, trace := s.trace ++ [⟨s.drv.address, [TCA9534_REG_OUTPUT, v]⟩] } := rfl
  rw [hstep]
  set s1 : MState := { s with clock := s.clock + 1, trace := s.trace ++ [⟨s.drv.address, [TCA9534_REG_OUTPUT, v]⟩] } with hs1def
  have hs1 : s1.clock = s1.trace.length := by
    simp [hs1def, hs]
  cases h : bus s.clock with
  | false =>
    simp only [Bool.not_false, if_true]
    refine ⟨by simp [M.pure, hs1], by simp [M.pure, hs1def], ⟨Except.error (), rfl⟩, ?_, ?_⟩
    · intro hbad
      simp [M.pure] at hbad
    · intro _
      refine ⟨by simp [M.pure, hs1def], ?_, ?_⟩
      · simpa [M.pure, hs1def] using h
      · intro i hi1 hi2
        simp [M.pure, hs1def] at hi2
        omega
  | true =>
    simp only [Bool.not_true]
    rw [if_neg (by decide : ¬ (false = true))]
    have H := hk s1 hs1
    have hc1 : s.clock + 1 = s1.clock := by simp [hs1def]
    refine ⟨H.1, by omega, H.2.2.1, ?_, ?_⟩
    · intro hok i hi1 hi2
      by_cases hc : i < s1.clock
      · have : i = s.clock := by omega
        rw [this]
        exact h
      · exact H.2.2.2.1 hok i (by omega) hi2
    · intro herr
      obtain ⟨hlt, hfail, hearlier⟩ := H.2.2.2.2 herr
      refine ⟨by omega, hfail, ?_⟩
      intro i hi1 hi2
      by_cases hc : i < s1.clock
      · have : i = s.clock := by omega
        rw [this]
        exact h
      · exact hearlier i (by omega) hi2

theorem fmt_spec (bus : Bus) (l : List Nat) : FmtSpec bus (fmt_write_str bus l) := by
  induction l with
  | nil => exact fmtSpec_pure_ok bus
  | cons b rest ih =>
    show FmtSpec bus (fmt_write_str bus (b :: rest))
    unfold fmt_write_str
    refine FmtSpec.silentBind (silent_modifyDrv _) (fun _ => ?_)
    refine FmtSpec.silentBind (silent_modifyDrv _) (fun _ => ?_)
    refine FmtSpec.silentBind (silent_modifyDrv _) (fun _ => ?_)
    refine FmtSpec.silentBind (silent_modifyDrv _) (fun _ => ?_)
    refine FmtSpec.silentBind silent_getS (fun s => ?_)
    refine FmtSpec.checkedWrite _ ?_
    refine FmtSpec.silentBind (silent_modifyDrv _) (fun _ => ?_)
    refine FmtSpec.silentBind silent_getS (fun s2 => ?_)
    refine FmtSpec.checkedWrite _ ?_
    refine FmtSpec.silentBind (silent_modifyDrv _) (fun _ => ?_)
    refine FmtSpec.silentBind silent_getS (fun s3 => ?_)
    refine FmtSpec.checkedWrite _ ?_
    refine FmtSpec.silentBind (silent_modifyDrv _) (fun _ => ?_)
    refine FmtSpec.silentBind silent_getS (fun s4 => ?_)
    refine FmtSpec.checkedWrite _ ?_
    exact ih

set_option maxRecDepth 4096 in
theorem ebit_facts (rs rw led : Bool) : ∀ b, b < 256 →
    OutputState.get_high_data ⟨rs, rw, true, led, b⟩ &&& 4 = 4 ∧
    OutputState.get_high_data ⟨rs, rw, false, led, b⟩ &&& 4 = 0 ∧
    OutputState.get_low_data ⟨rs, rw, true, led, b⟩ &&& 4 = 4 ∧
    OutputState.get_low_data ⟨rs, rw, false, led, b⟩ &&& 4 = 0 := by
  rcases rs <;> rcases rw <;> rcases led <;> decide

set_option maxRecDepth 4096 in
theorem c5_bits : ∀ v, v < 256 →
    ((0x08 ||| (v ||| 2)).testBit 1 = true) ∧
    ((v ||| 2) ||| 2 = v ||| 2) ∧
    ((v ||| 2) &&& 0xFD = v &&& 0xFD) ∧
    (v &&& 2 = 0 → (v ||| 2) &&& 0xFD = v) := by
  decide

theorem loopDrv_e (l : List Nat) (d : LcdI2c) (hd : d.output.e = false) :
    (loopDrv d l).output.e = false := by
  induction l generalizing d with
  | nil => exact hd
  | cons b rest ih => exact ih _ rfl

/-- C1: for every command or data byte in normal post-init operation the driver
performs exactly four expander writes in order (high nibble with Enable set,
high nibble with Enable clear, low nibble with Enable set, low nibble with
Enable clear); in initialization mode only the two high-nibble writes happen,
and the cold-boot sequence issues exactly the three 0x30 legacy transfers and
the 0x20 switch in that two-write form before the first full four-write cycle. -/
theorem c1_nibble_transfer_order :
    (∀ (b : Nat) (s : MState),
       lcd_write busOK b false s =
         (Except.ok (),
           ⟨{ s.drv with output := { s.drv.output with data := b, e := false } }, s.clock + 4,
             s.trace ++ cmdFrames s.drv.address s.drv.output.rs s.drv.output.rw s.drv.output.led b⟩)) ∧
    (∀ (b : Nat) (s : MState),
       lcd_write busOK b true s =
         (Except.ok (),
           ⟨{ s.drv with output := { s.drv.output with data := b, e := false } }, s.clock + 2,
             s.trace ++ initFrames s.drv.address s.drv.output.rs s.drv.output.rw s.drv.output.led b⟩)) ∧
    (∀ (addr : Nat) (rs rw led : Bool), ∀ b, b < 256 →
       (bytesOf (cmdFrames addr rs rw led b)).map (fun v => v &&& 4) = [4, 0, 4, 0] ∧
       (bytesOf (initFrames addr rs rw led b)).map (fun v => v &&& 4) = [4, 0]) ∧
    (∀ s : MState,
       initialize_lcd busOK s =
         (Except.ok (),
           ⟨{ s.drv with
               output := { s.drv.output with rs := false, rw := false, data := 0x04 ||| (s.drv.entry_state ||| 2), e := false },
               display_state := s.drv.display_state ||| 4,
               entry_state := s.drv.entry_state ||| 2 },
             s.clock + 24,
             s.trace
               ++ initFrames s.drv.address false false s.drv.output.led 0x30
               ++ initFrames s.drv.address false false s.drv.output.led 0x30
               ++ initFrames s.drv.address false false s.drv.output.led 0x30
               ++ initFrames s.drv.address false false s.drv.output.led 0x20
               ++ cmdFrames s.drv.address false false s.drv.output.led 0x28
               ++ cmdFrames s.drv.address false false s.drv.output.led (0x08 ||| (s.drv.display_state ||| 4))
               ++ cmdFrames s.drv.address false false s.drv.output.led 0x01
               ++ cmdFrames s.drv.address false false s.drv.output.led (0x04 ||| (s.drv.entry_state ||| 2))⟩)) := by
  refine ⟨lcd_write_ok, lcd_write_init_ok, ?_, initialize_lcd_ok⟩
  intro addr rs rw led b hb
  have h := ebit_facts rs rw led b hb
  rw [bytesOf_cmdFrames, bytesOf_initFrames]
  simp [h.1, h.2.1, h.2.2.1, h.2.2.2]

/-- C1 witness: the Enable-bit pattern of one concrete full cycle and one
concrete initialization half-cycle. -/
theorem c1_witness :
    (bytesOf (cmdFrames 39 false false false 0x30)).map (fun v => v &&& 4) = [4, 0, 4, 0] ∧
    (bytesOf (initFrames 39 false false false 0x30)).map (fun v => v &&& 4) = [4, 0] :=
  c1_nibble_transfer_order.2.2.1 39 false false false 0x30 (by decide)

/-- C2: set_cursor is total (never panics, always returns Ok under a healthy
bus), and any row at or beyond the two configured rows issues exactly the same
command as row 1 (the last valid row): the set-DDRAM-address command for the
row-1 offset at the requested column. -/
theorem c2_set_cursor_clamps :
    (∀ (col row : Nat) (s : MState), okB ((set_cursor busOK col row) s).1 = true) ∧
    (∀ (bus : Bus) (col row : Nat) (s : MState), 2 ≤ row →
       set_cursor bus col row s = set_cursor bus col 1 s) ∧
    (∀ (col row : Nat) (d : LcdI2c), 1 ≤ row →
       ((set_cursor busOK col row) (MState.init d)).2.trace =
         cmdFrames d.address false false d.output.led (0x80 ||| ((0x40 + col) % 256))) := by
  refine ⟨?_, ?_, ?_⟩
  · intro col row s
    rw [set_cursor_ok]
    rfl
  · intro bus col row s hrow
    have h : (row == 0) = false := by
      simp only [beq_eq_false_iff_ne, ne_eq]
      omega
    unfold set_cursor
    rw [h]
    rfl
  · intro col row d hrow
    have h : (row == 0) = false := by
      simp only [beq_eq_false_iff_ne, ne_eq]
      omega
    rw [set_cursor_ok, h]
    simp [MState.init]

/-- C2 witness: an out-of-range row (7) behaves exactly as row 1. -/
theorem c2_witness :
    set_cursor busOK 3 7 (MState.init (LcdI2c.new 39)) =
      set_cursor busOK 3 1 (MState.init (LcdI2c.new 39)) :=
  c2_set_cursor_clamps.2.1 busOK 3 7 (MState.init (LcdI2c.new 39)) (by decide)

/-- C3: every public operation stops at the first failing bus write: every
attempt is recorded exactly once, an error return means the last recorded
attempt is the failing one with all prior attempts successful (so nothing is
written after the failure and nothing is retried), an ok return means all
attempts succeeded; and a failed toggle still leaves its flag bit mutated, as
cursor under a dead bus shows. -/
theorem c3_first_failure_stops :
    (∀ (op : Op) (bus : Bus) (d : LcdI2c),
       ((Op.run bus op) (MState.init d)).2.trace.length = ((Op.run bus op) (MState.init d)).2.clock ∧
       (okB ((Op.run bus op) (MState.init d)).1 = false →
         bus (((Op.run bus op) (MState.init d)).2.clock - 1) = false ∧
         ∀ i, i < ((Op.run bus op) (MState.init d)).2.clock - 1 → bus i = true) ∧
       (okB ((Op.run bus op) (MState.init d)).1 = true →
         ∀ i, i < ((Op.run bus op) (MState.init d)).2.clock → bus i = true)) ∧
    (∀ (d : LcdI2c),
       okB ((cursor busFail) (MState.init d)).1 = false ∧
       ((cursor busFail) (MState.init d)).2.drv.display_state = d.display_state ||| 2 ∧
       ((cursor busFail) (MState.init d)).2.trace.length = 1) := by
  constructor
  · intro op bus d
    have H := noRetry_op bus op (MState.init d) rfl
    simp only [MState.init] at H
    refine ⟨H.1.symm, ?_, ?_⟩
    · intro hbad
      obtain ⟨hlt, hfail, hearlier⟩ := H.2.2.2 hbad
      exact ⟨hfail, fun i hi => hearlier i (by omega) hi⟩
    · intro hok i hi
      exact H.2.2.1 hok i (by omega) hi
  · intro d
    refine ⟨?_, ?_, ?_⟩ <;>
      simp [cursor, M.bind_apply, M.getS, M.setRS, M.setRW, M.setDS, M.modifyDrv,
        lcd_write, M.setData, M.setE, i2c_write, M.busWrite, busFail, MState.init, okB]

/-- C3 witness: clear on a dead bus records exactly the one failing attempt. -/
theorem c3_witness :
    ((Op.run busFail Op.opClear) (MState.init (LcdI2c.new 39))).2.trace.length =
      ((Op.run busFail Op.opClear) (MState.init (LcdI2c.new 39))).2.clock ∧
    busFail (((Op.run busFail Op.opClear) (MState.init (LcdI2c.new 39))).2.clock - 1) = false := by
  have h := (c3_first_failure_stops.1 Op.opClear busFail (LcdI2c.new 39))
  exact ⟨h.1, (h.2.1 (by decide)).1⟩

/-- C4 counterexample: the fmt sink DOES report a bus failure to the caller.
Sending one byte over a dead bus returns the fmt error value (Err(fmt::Error)
in the source, lines 412-430 of src/src/lib.rs), refuting the claim that a
failure is never reported. -/
theorem c4_counterexample :
    (fmt_write_str busFail [72] (MState.init (LcdI2c.new 39))).1 =
      Except.ok (Except.error ()) ∧
    (fmt_write_str busFail [72] (MState.init (LcdI2c.new 39))).2.clock = 1 := by
  constructor <;> rfl

/-- C4 amended: the fmt::Write sink never uses the typed transport-error
channel, but it does report failure: it returns the opaque fmt error value on
the first failing write and stops writing at that point; on full success every
attempted write succeeded. -/
theorem c4_fmt_reports_first_failure :
    ∀ (bus : Bus) (l : List Nat) (d : LcdI2c),
      (∃ x, (fmt_write_str bus l (MState.init d)).1 = Except.ok x) ∧
      ((fmt_write_str bus l (MState.init d)).1 = Except.ok (Except.ok ()) →
        ∀ i, i < (fmt_write_str bus l (MState.init d)).2.clock → bus i = true) ∧
      ((fmt_write_str bus l (MState.init d)).1 = Except.ok (Except.error ()) →
        bus ((fmt_write_str bus l (MState.init d)).2.clock - 1) = false ∧
        ∀ i, i < (fmt_write_str bus l (MState.init d)).2.clock - 1 → bus i = true) ∧
      (fmt_write_str bus l (MState.init d)).2.trace.length =
        (fmt_write_str bus l (MState.init d)).2.clock := by
  intro bus l d
  have H := fmt_spec bus l (MState.init d) rfl
  simp only [MState.init] at H
  refine ⟨H.2.2.1, ?_, ?_, H.1.symm⟩
  · intro hok i hi
    exact H.2.2.2.1 hok i (by omega) hi
  · intro herr
    obtain ⟨hlt, hfail, hearlier⟩ := H.2.2.2.2 herr
    exact ⟨hfail, fun i hi => hearlier i (by omega) hi⟩

/-- C4 witness: the amended statement at the concrete dead-bus one-byte input. -/
theorem c4_witness :
    busFail ((fmt_write_str busFail [72] (MState.init (LcdI2c.new 39))).2.clock - 1) = false := by
  have h := (c4_fmt_reports_first_failure busFail [72] (LcdI2c.new 39)).2.2.1 (by rfl)
  exact h.1

/-- C5 counterexample: from the reachable driver state with the cursor bit
already set (right after one cursor call), running cursor then no_cursor does
NOT restore the pre-cursor display-control flags byte: it was 2 and ends 0. -/
theorem c5_counterexample :
    ((cursor busOK (MState.init (LcdI2c.new 39))).2.drv.display_state = 2) ∧
    ((no_cursor busOK
        ((cursor busOK ((cursor busOK (MState.init (LcdI2c.new 39))).2)).2)).2.drv.display_state ≠
      (cursor busOK (MState.init (LcdI2c.new 39))).2.drv.display_state) := by
  constructor <;> decide

/-- C5 amended: cursor twice issues the display-control command twice, both
times with the cursor bit (bit 1) set and with identical command bytes; cursor
followed by no_cursor leaves the flags byte equal to the pre-cursor byte with
the cursor bit cleared, hence exactly the pre-cursor byte whenever the cursor
bit was clear beforehand. -/
theorem c5_cursor_toggles :
    ∀ (d : LcdI2c), d.display_state < 256 →
      ((cursor busOK (MState.init d)).2.trace =
         cmdFrames d.address false false d.output.led (0x08 ||| (d.display_state ||| 2))) ∧
      ((cursor busOK ((cursor busOK (MState.init d)).2)).2.trace =
         (cursor busOK (MState.init d)).2.trace ++
           cmdFrames d.address false false d.output.led (0x08 ||| (d.display_state ||| 2))) ∧
      ((0x08 ||| (d.display_state ||| 2)).testBit 1 = true) ∧
      ((no_cursor busOK ((cursor busOK (MState.init d)).2)).2.drv.display_state =
         d.display_state &&& 0xFD) ∧
      (d.display_state &&& 2 = 0 →
        (no_cursor busOK ((cursor busOK (MState.init d)).2)).2.drv.display_state =
          d.display_state) := by
  intro d hd
  have hb := c5_bits d.display_state hd
  refine ⟨?_, ?_, hb.1, ?_, ?_⟩
  · rw [cursor_ok]
    simp [MState.init]
  · rw [cursor_ok, cursor_ok]
    simp [MState.init, hb.2.1]
  · rw [cursor_ok, no_cursor_ok]
    simp [MState.init, hb.2.2.1]
  · intro hclear
    rw [cursor_ok, no_cursor_ok]
    simp [MState.init]
    have := hb.2.2.2 hclear
    simpa using this

/-- C5 witness: the amended statement at a concrete state with the cursor bit
clear. -/
theorem c5_witness :
    ((0x08 ||| ((LcdI2c.new 39).display_state ||| 2)).testBit 1 = true) ∧
    (no_cursor busOK ((cursor busOK (MState.init (LcdI2c.new 39))).2)).2.drv.display_state =
      (LcdI2c.new 39).display_state := by
  have h := c5_cursor_toggles (LcdI2c.new 39) (by decide)
  exact ⟨h.2.2.1, h.2.2.2.2 (by decide)⟩

/-- C6: create_char masks the slot with modulo 8 (equal to a 3-bit mask),
issues the set-CGRAM-address command for that slot, writes the 8 glyph bytes
as data frames (RS asserted), and ends with exactly the frames of
set_cursor(0,0) — the 0x80 set-DDRAM-address command — so an immediately
following write resumes at row 0 column 0 of display memory. -/
theorem c6_create_char_restores_ddram :
    ∀ (loc : Nat) (cm : List Nat) (d : LcdI2c), cm.length = 8 →
      okB ((create_char busOK loc cm) (MState.init d)).1 = true ∧
      ((create_char busOK loc cm) (MState.init d)).2.trace =
        cmdFrames d.address false false d.output.led (0x40 ||| ((loc % 8) <<< 3))
          ++ dataFramesList d.address d.output.led cm
          ++ cmdFrames d.address false false d.output.led 0x80 ∧
      loc % 8 = loc &&& 7 ∧
      loc % 8 < 8 ∧
      (∀ s2 : MState, s2.drv.address = d.address → s2.drv.output.led = d.output.led →
         (set_cursor busOK 0 0 s2).2.trace =
           s2.trace ++ cmdFrames d.address false false d.output.led 0x80) ∧
      ((create_char busOK loc cm) (MState.init d)).2.drv.output.data = 0x80 ∧
      ((create_char busOK loc cm) (MState.init d)).2.drv.output.rs = false := by
  intro loc cm d hcm
  refine ⟨?_, ?_, ?_, ?_, ?_, ?_, ?_⟩
  · rw [create_char_ok]
    rfl
  · rw [create_char_ok]
    simp [MState.init, loopDrv_address, loopDrv_led]
  · exact (Nat.and_pow_two_sub_one_eq_mod loc 3).symm
  · exact Nat.mod_lt loc (by norm_num)
  · intro s2 ha hl
    rw [set_cursor_ok]
    simp [ha, hl]
  · rw [create_char_ok]
  · rw [create_char_ok]

/-- C6 witness: a concrete upload of slot 9 (masked to 1) with an 8-byte glyph. -/
theorem c6_witness :
    ((create_char busOK 9 [1, 2, 3, 4, 5, 6, 7, 8]) (MState.init (LcdI2c.new 39))).2.drv.output.data = 0x80 ∧
    9 % 8 = 9 &&& 7 := by
  have h := c6_create_char_restores_ddram 9 [1, 2, 3, 4, 5, 6, 7, 8] (LcdI2c.new 39) (by decide)
  exact ⟨h.2.2.2.2.2.1, h.2.2.1⟩

/-- C7 counterexample: the driver struct holds exactly two cumulative
accumulator bytes (display_state and entry_state), not three — there is no
stored function-set accumulator in the source struct. -/
theorem c7_counterexample :
    (LcdI2c.new 39).flagAccumulators.length = 2 ∧
    ¬ (LcdI2c.new 39).flagAccumulators.length = 3 := by
  constructor <;> decide

/-- C7 amended: the two accumulator bytes display_state and entry_state are
zero at construction, first receive real values during begin (display on,
left-to-right), are mutated in place by exactly one bitwise set or clear per
toggle operation under any bus behaviour, and are preserved by every other
non-begin operation; the function-set value is not stored, begin issues it as
the constant 0x28. -/
theorem c7_two_accumulators :
    (∀ a, (LcdI2c.new a).flagAccumulators = [0x00, 0x00]) ∧
    (∀ a, (begin busOK (MState.init (LcdI2c.new a))).2.drv.flagAccumulators = [0x04, 0x02]) ∧
    (∀ (bus : Bus) (s : MState),
       ((display bus) s).2.drv.display_state = s.drv.display_state ||| (1 <<< 2) ∧
       ((no_display bus) s).2.drv.display_state = s.drv.display_state &&& 0xFB ∧
       ((cursor bus) s).2.drv.display_state = s.drv.display_state ||| (1 <<< 1) ∧
       ((no_cursor bus) s).2.drv.display_state = s.drv.display_state &&& 0xFD ∧
       ((blink bus) s).2.drv.display_state = s.drv.display_state ||| 1 ∧
       ((no_blink bus) s).2.drv.display_state = s.drv.display_state &&& 0xFE ∧
       ((left_to_right bus) s).2.drv.entry_state = s.drv.entry_state ||| (1 <<< 1) ∧
       ((right_to_left bus) s).2.drv.entry_state = s.drv.entry_state &&& 0xFD ∧
       ((autoscroll bus) s).2.drv.entry_state = s.drv.entry_state ||| 1 ∧
       ((no_autoscroll bus) s).2.drv.entry_state = s.drv.entry_state &&& 0xFE) ∧
    (∀ (bus : Bus) (s : MState),
       ((clear bus) s).2.drv.flagAccumulators = s.drv.flagAccumulators ∧
       ((home bus) s).2.drv.flagAccumulators = s.drv.flagAccumulators ∧
       ((scroll_display_left bus) s).2.drv.flagAccumulators = s.drv.flagAccumulators ∧
       ((scroll_display_right bus) s).2.drv.flagAccumulators = s.drv.flagAccumulators ∧
       ((backlight bus) s).2.drv.flagAccumulators = s.drv.flagAccumulators ∧
       ((no_backlight bus) s).2.drv.flagAccumulators = s.drv.flagAccumulators ∧
       (∀ col row, ((set_cursor bus col row) s).2.drv.flagAccumulators = s.drv.flagAccumulators) ∧
       (∀ b, ((write_byte bus b) s).2.drv.flagAccumulators = s.drv.flagAccumulators) ∧
       (∀ l, ((write_str bus l) s).2.drv.flagAccumulators = s.drv.flagAccumulators) ∧
       (∀ loc cm, ((create_char bus loc cm) s).2.drv.flagAccumulators = s.drv.flagAccumulators)) := by
  refine ⟨?_, ?_, ?_, ?_⟩
  · intro a
    rfl
  · intro a
    rw [begin_ok]
    simp [MState.init, LcdI2c.new, LcdI2c.flagAccumulators, OutputState.new]
  · intro bus s
    exact ⟨(toggleDS_effect bus _ s).1, (toggleDS_effect bus _ s).1,
      (toggleDS_effect bus _ s).1, (toggleDS_effect bus _ s).1,
      (toggleDS_effect bus _ s).1, (toggleDS_effect bus _ s).1,
      (toggleES_effect bus _ s).1, (toggleES_effect bus _ s).1,
      (toggleES_effect bus _ s).1, (toggleES_effect bus _ s).1⟩
  · intro bus s
    have hacc : ∀ s2 : MState, ∀ m : M Unit, DrvRel m PFlags →
        (m s2).2.drv.flagAccumulators = s2.drv.flagAccumulators := by
      intro s2 m hm
      have h := hm s2
      simp [LcdI2c.flagAccumulators, h.1, h.2.1]
    refine ⟨hacc s _ (pflags_clear bus), hacc s _ (pflags_home bus),
      hacc s _ (pflags_scroll_left bus), hacc s _ (pflags_scroll_right bus),
      ?_, ?_,
      fun col row => hacc s _ (pflags_set_cursor bus col row),
      fun b => hacc s _ (pflags_write_byte bus b),
      fun l => hacc s _ (pflags_write_str bus l),
      fun loc cm => hacc s _ (pflags_create_char bus loc cm)⟩
    · rw [backlight_drv]
      simp [LcdI2c.flagAccumulators]
    · rw [no_backlight_drv]
      simp [LcdI2c.flagAccumulators]

/-- C9: each nibble-frame rendering is injective on the five logical signals it
carries: equal high-nibble frames force equal RS, R/W, Enable, Backlight and
equal high data nibbles, and likewise for low-nibble frames with the low data
nibble. -/
theorem c9_render_injective :
    ∀ (s1 s2 : OutputState), s1.data < 256 → s2.data < 256 →
      (OutputState.get_high_data s1 = OutputState.get_high_data s2 →
        s1.rs = s2.rs ∧ s1.rw = s2.rw ∧ s1.e = s2.e ∧ s1.led = s2.led ∧
          s1.data &&& 0xF0 = s2.data &&& 0xF0) ∧
      (OutputState.get_low_data s1 = OutputState.get_low_data s2 →
        s1.rs = s2.rs ∧ s1.rw = s2.rw ∧ s1.e = s2.e ∧ s1.led = s2.led ∧
          s1.data &&& 0x0F = s2.data &&& 0x0F) := by
  rintro ⟨rs1, rw1, e1, led1, d1⟩ ⟨rs2, rw2, e2, led2, d2⟩ h1 h2
  constructor
  · intro h
    have hd := congrArg decodeSig h
    rw [decode_high rs1 rw1 e1 led1 d1 h1, decode_high rs2 rw2 e2 led2 d2 h2] at hd
    simp only [Prod.mk.injEq] at hd
    exact ⟨hd.1, hd.2.1, hd.2.2.1, hd.2.2.2.1, hd.2.2.2.2⟩
  · intro h
    have hd := congrArg decodeSig h
    rw [decode_low rs1 rw1 e1 led1 d1 h1, decode_low rs2 rw2 e2 led2 d2 h2] at hd
    simp only [Prod.mk.injEq] at hd
    refine ⟨hd.1, hd.2.1, hd.2.2.1, hd.2.2.2.1, ?_⟩
    have hs := hd.2.2.2.2
    rw [Nat.shiftLeft_eq, Nat.shiftLeft_eq] at hs
    show d1 &&& 0x0F = d2 &&& 0x0F
    omega

/-- C9 witness: two concrete states agreeing on the used signals of the high
frame produce equal bytes, and the theorem recovers the equal high nibbles. -/
theorem c9_witness :
    OutputState.get_high_data ⟨false, false, false, false, 0x10⟩ =
      OutputState.get_high_data ⟨false, false, false, false, 0x1F⟩ ∧
    (0x10 : Nat) &&& 0xF0 = (0x1F : Nat) &&& 0xF0 := by
  refine ⟨by decide, ?_⟩
  have h := (c9_render_injective ⟨false, false, false, false, 0x10⟩
    ⟨false, false, false, false, 0x1F⟩ (by decide) (by decide)).1 (by decide)
  exact h.2.2.2.2

/-- C10: starting from construction, after any sequence of public operations
under any bus behaviour, display_state keeps to its low three bits and
entry_state to its low two bits, so the display-control and entry-mode
commands always carry their opcode prefixes intact. -/
theorem c10_flag_ranges :
    (∀ (bus : Bus) (ops : List Op) (a : Nat),
       (runOps bus ops (MState.init (LcdI2c.new a))).2.drv.display_state < 8 ∧
       (runOps bus ops (MState.init (LcdI2c.new a))).2.drv.entry_state < 4) ∧
    (∀ v, v < 8 → (0x08 ||| v) &&& 0xF8 = 0x08) ∧
    (∀ v, v < 4 → (0x04 ||| v) &&& 0xFC = 0x04) := by
  refine ⟨?_, by decide, by decide⟩
  intro bus ops a
  have H := pinv_runOps bus ops (MState.init (LcdI2c.new a))
  exact H ⟨by simp [MState.init, LcdI2c.new], by simp [MState.init, LcdI2c.new]⟩

/-- C10 witness: the invariant after a concrete sequence, and the opcode
prefixes at the extreme in-range flag values. -/
theorem c10_witness :
    ((runOps busOK [Op.opCursor, Op.opBlink] (MState.init (LcdI2c.new 39))).2.drv.display_state < 8) ∧
    ((0x08 ||| 7) &&& 0xF8 = 0x08) ∧ ((0x04 ||| 3) &&& 0xFC = 0x04) :=
  ⟨(c10_flag_ranges.1 busOK [Op.opCursor, Op.opBlink] 39).1,
   c10_flag_ranges.2.1 7 (by decide), c10_flag_ranges.2.2 3 (by decide)⟩

theorem pulsed_regs (a : Nat) :
    Pulsed (bytesOf
      [⟨a, [TCA9534_REG_CONFIG, 0x00]⟩, ⟨a, [TCA9534_REG_POLARITY, 0x00]⟩,
        ⟨a, [TCA9534_REG_OUTPUT, 0x00]⟩]) :=
  Pulsed.low 0 _ (by decide) (Pulsed.low 0 _ (by decide) (Pulsed.low 0 _ (by decide) Pulsed.nil))

/-- C8: under a healthy bus, from any well-formed driver state, the byte stream
of every public operation keeps the enable-pulse discipline (every Enable-high
byte is immediately followed by its Enable-low twin, every other byte has
Enable clear), every operation returns with the staged Enable shadow low, and
every operation other than backlight and no_backlight preserves the Backlight
shadow under any bus behaviour. -/
theorem c8_enable_low_backlight_persists :
    (∀ (op : Op) (d : LcdI2c), Op.wf op → LcdI2c.wf d →
       Pulsed (bytesOf ((Op.run busOK op) (MState.init d)).2.trace) ∧
       ((Op.run busOK op) (MState.init d)).2.drv.output.e = false) ∧
    (∀ (op : Op) (bus : Bus) (s : MState), op ≠ Op.opBacklight → op ≠ Op.opNoBacklight →
       ((Op.run bus op) s).2.drv.output.led = s.drv.output.led) := by
  constructor
  · intro op d hop hd
    obtain ⟨hds, hes, hdata, he⟩ := hd
    have hds8 : (0x08 : Nat) < 256 := by decide
    have hes4 : (0x04 : Nat) < 256 := by decide
    cases op with
    | opBegin =>
      simp only [Op.run]
      rw [begin_ok]
      constructor
      · simp only [MState.init, List.nil_append, bytesOf_append]
        refine Pulsed.append (Pulsed.append (Pulsed.append (Pulsed.append (Pulsed.append
          (Pulsed.append (Pulsed.append (Pulsed.append (pulsed_regs d.address)
            (pulsed_initFrames _ _ _ _ _ (by decide)))
            (pulsed_initFrames _ _ _ _ _ (by decide)))
            (pulsed_initFrames _ _ _ _ _ (by decide)))
            (pulsed_initFrames _ _ _ _ _ (by decide)))
            (pulsed_cmdFrames _ _ _ _ _ (by decide)))
            (pulsed_cmdFrames _ _ _ _ _ (or_lt_256 8 _ (by decide) (or_lt_256 _ 4 hds (by decide)))))
            (pulsed_cmdFrames _ _ _ _ _ (by decide)))
            (pulsed_cmdFrames _ _ _ _ _ (or_lt_256 4 _ (by decide) (or_lt_256 _ 2 hes (by decide))))
      · rfl
    | opClear =>
      simp only [Op.run]
      rw [clear_ok]
      exact ⟨by simp only [MState.init, List.nil_append]
                exact pulsed_cmdFrames _ _ _ _ _ (by decide), rfl⟩
    | opHome =>
      simp only [Op.run]
      rw [home_ok]
      exact ⟨by simp only [MState.init, List.nil_append]
                exact pulsed_cmdFrames _ _ _ _ _ (by decide), rfl⟩
    | opDisplay =>
      simp only [Op.run]
      rw [display_ok]
      exact ⟨by simp only [MState.init, List.nil_append]
                exact pulsed_cmdFrames _ _ _ _ _
                  (or_lt_256 8 _ (by decide) (or_lt_256 _ 4 hds (by decide))), rfl⟩
    | opNoDisplay =>
      simp only [Op.run]
      rw [no_display_ok]
      exact ⟨by simp only [MState.init, List.nil_append]
                exact pulsed_cmdFrames _ _ _ _ _
                  (or_lt_256 8 _ (by decide) (and_lt_of_lt _ 0xFB 256 hds)), rfl⟩
    | opCursor =>
      simp only [Op.run]
      rw [cursor_ok]
      exact ⟨by simp only [MState.init, List.nil_append]
                exact pulsed_cmdFrames _ _ _ _ _
                  (or_lt_256 8 _ (by decide) (or_lt_256 _ 2 hds (by decide))), rfl⟩
    | opNoCursor =>
      simp only [Op.run]
      rw [no_cursor_ok]
      exact ⟨by simp only [MState.init, List.nil_append]
                exact pulsed_cmdFrames _ _ _ _ _
                  (or_lt_256 8 _ (by decide) (and_lt_of_lt _ 0xFD 256 hds)), rfl⟩
    | opBlink =>
      simp only [Op.run]
      rw [blink_ok]
      exact ⟨by simp only [MState.init, List.nil_append]
                exact pulsed_cmdFrames _ _ _ _ _
                  (or_lt_256 8 _ (by decide) (or_lt_256 _ 1 hds (by decide))), rfl⟩
    | opNoBlink =>
      simp only [Op.run]
      rw [no_blink_ok]
      exact ⟨by simp only [MState.init, List.nil_append]
                exact pulsed_cmdFrames _ _ _ _ _
                  (or_lt_256 8 _ (by decide) (and_lt_of_lt _ 0xFE 256 hds)), rfl⟩
    | opLeftToRight =>
      simp only [Op.run]
      rw [left_to_right_ok]
      exact ⟨by simp only [MState.init, List.nil_append]
                exact pulsed_cmdFrames _ _ _ _ _
                  (or_lt_256 4 _ (by decide) (or_lt_256 _ 2 hes (by decide))), rfl⟩
    | opRightToLeft =>
      simp only [Op.run]
      rw [right_to_left_ok]
      exact ⟨by simp only [MState.init, List.nil_append]
                exact pulsed_cmdFrames _ _ _ _ _
                  (or_lt_256 4 _ (by decide) (and_lt_of_lt _ 0xFD 256 hes)), rfl⟩
    | opAutoscroll =>
      simp only [Op.run]
      rw [autoscroll_ok]
      exact ⟨by simp only [MState.init, List.nil_append]
                exact pulsed_cmdFrames _ _ _ _ _
                  (or_lt_256 4 _ (by decide) (or_lt_256 _ 1 hes (by decide))), rfl⟩
    | opNoAutoscroll =>
      simp only [Op.run]
      rw [no_autoscroll_ok]
      exact ⟨by simp only [MState.init, List.nil_append]
                exact pulsed_cmdFrames _ _ _ _ _
                  (or_lt_256 4 _ (by decide) (and_lt_of_lt _ 0xFE 256 hes)), rfl⟩
    | opScrollLeft =>
      simp only [Op.run]
      rw [scroll_display_left_ok]
      exact ⟨by simp only [MState.init, List.nil_append]
                exact pulsed_cmdFrames _ _ _ _ _ (by decide), rfl⟩
    | opScrollRight =>
      simp only [Op.run]
      rw [scroll_display_right_ok]
      exact ⟨by simp only [MState.init, List.nil_append]
                exact pulsed_cmdFrames _ _ _ _ _ (by decide), rfl⟩
    | opBacklight =>
      simp only [Op.run]
      rw [backlight_ok]
      exact ⟨Pulsed.low 8 _ (by decide) Pulsed.nil, he⟩
    | opNoBacklight =>
      simp only [Op.run]
      rw [no_backlight_ok]
      exact ⟨Pulsed.low 0 _ (by decide) Pulsed.nil, he⟩
    | opSetCursor col row =>
      simp only [Op.run]
      rw [set_cursor_ok]
      refine ⟨?_, rfl⟩
      simp only [MState.init, List.nil_append]
      exact pulsed_cmdFrames _ _ _ _ _
        (or_lt_256 0x80 _ (by decide) (Nat.mod_lt _ (by norm_num)))
    | opCreateChar loc cm =>
      obtain ⟨hloc, hcm⟩ := hop
      simp only [Op.run]
      rw [create_char_ok]
      refine ⟨?_, rfl⟩
      simp only [MState.init, List.nil_append, bytesOf_append]
      have hcg : (loc % 8) <<< 3 < 256 := by
        rw [Nat.shiftLeft_eq]
        have := Nat.mod_lt loc (by norm_num : 0 < 8)
        norm_num
        omega
      exact Pulsed.append (Pulsed.append
        (pulsed_cmdFrames _ _ _ _ _ (or_lt_256 0x40 _ (by decide) hcg))
        (pulsed_dataFramesList _ _ _ hcm))
        (pulsed_cmdFrames _ _ _ _ _ (by decide))
    | opWriteByte b =>
      simp only [Op.run]
      rw [write_byte_ok]
      refine ⟨?_, rfl⟩
      simp only [MState.init, List.nil_append]
      exact pulsed_cmdFrames _ _ _ _ _ hop
    | opWriteStr l =>
      simp only [Op.run, write_str]
      rw [writeBytesLoop_ok]
      refine ⟨?_, ?_⟩
      · simp only [MState.init, List.nil_append]
        exact pulsed_dataFramesList _ _ _ hop
      · exact loopDrv_e l d he
  · intro op bus s h1 h2
    exact pled_op bus op h1 h2 s

/-- C8 witness: the discipline of a concrete cursor call from a fresh driver,
and backlight persistence across a clear on a failing bus. -/
theorem c8_witness :
    ((Op.run busOK Op.opCursor) (MState.init (LcdI2c.new 39))).2.drv.output.e = false ∧
    ((Op.run busFail Op.opClear) (MState.init (LcdI2c.new 39))).2.drv.output.led =
      (MState.init (LcdI2c.new 39)).drv.output.led := by
  constructor
  · exact (c8_enable_low_backlight_persists.1 Op.opCursor (LcdI2c.new 39)
      (by trivial) (by exact ⟨by decide, by decide, by decide, by decide⟩)).2
  · exact c8_enable_low_backlight_persists.2 Op.opClear busFail (MState.init (LcdI2c.new 39))
      (by decide) (by decide)

end Lcd
